import Mathlib

/-!
Verification development for the Celestial-SF source-to-source obfuscator.

The JavaScript sources are shallowly embedded here:

* JS strings are lists of UTF-16 code units (`JSStr := List Nat`); string
  indexing, `length`, `charCodeAt`, `split` and template concatenation are
  modelled on those unit lists, exactly as V8 sees them.
* JS numbers that flow through bitwise operators are modelled by their
  unsigned 32-bit bit pattern (`Nat` with explicit `% 2^32`); the
  sign-propagating shift `>> 17` is modelled on the pattern.
* `EntropyGenerator.random()` returns `state/0xFFFFFFFF` (a double in JS);
  comparisons such as `random() > 0.7` and floors such as
  `Math.floor(random() * k)` are modelled by exact rational arithmetic over
  the 32-bit numerator.  For every concrete evaluation appearing in the
  theorems below the drawn numerators are far from the decision boundaries,
  where the exact-rational and the IEEE-double semantics agree.
* Fallible or possibly non-terminating JS code (a `do…while` retry loop, a
  call to a missing method) is modelled with `Option`, plus an explicit
  fuel argument for the retry loop.
-/

set_option maxRecDepth 10000

namespace Celestial

/-- A JavaScript string, as its list of UTF-16 code units. -/
abbrev JSStr := List Nat

/-- Embed an ASCII/BMP Lean string literal as its UTF-16 code-unit list. -/
def jstr (s : String) : JSStr := s.data.map Char.toNat

/-! ## Entropy oracle (`EntropyGenerator`, src/unnamed/part_002)

`this.state` is held as a signed 32-bit integer by the JS bitwise
operators; we track its unsigned 32-bit bit pattern. -/

namespace Ent

def U32MOD : Nat := 4294967296
def U32MAX : Nat := 4294967295

/-- One update of `random()`:
`state ^= state << 13; state ^= state >> 17; state ^= state << 5`,
on the unsigned bit pattern (`>>` is the sign-propagating shift). -/
def step (s : Nat) : Nat :=
  let s1 := s ^^^ ((s * 8192) % U32MOD)
  let s2 := s1 ^^^
    (if s1 < 2147483648 then s1 / 131072 else s1 / 131072 + (U32MOD - 32768))
  s2 ^^^ ((s2 * 32) % U32MOD)

/-- `random()`: new state and the 32-bit numerator `u` of the returned
double `u / 0xFFFFFFFF`. -/
def rand (s : Nat) : Nat × Nat :=
  let s' := step s
  (s', s')

/-- `random() > num/den`, exactly (`u/0xFFFFFFFF > num/den`). -/
def randGt (u num den : Nat) : Bool := den * u > num * U32MAX

/-- `randomInt(lo, hi) = Math.floor(random() * (hi - lo + 1)) + lo`.
For `hi + 1 < lo` the JS span `hi - lo + 1` is negative and the floor of a
non-positive product is `0`; the only such call in the sources is
`randomInt(1, 0)`, whose span is `0`, matched by truncated subtraction. -/
def randomInt (lo hi s : Nat) : Nat × Nat :=
  let (u, s') := rand s
  ((u * (hi + 1 - lo)) / U32MAX + lo, s')

/-- `randomChoice(arr) = arr[randomInt(0, arr.length - 1)]`. -/
def randomChoice (arr : List JSStr) (s : Nat) : JSStr × Nat :=
  let (i, s') := randomInt 0 (arr.length - 1) s
  (arr.getD i [], s')

/-- One naming grammar of `initGrammars` (code-unit lists exactly as the
UTF-8 source file decodes). -/
structure Grammar where
  pre : List JSStr
  suf : List JSStr
  charset : JSStr
  lo : Nat
  hi : Nat

def grammars : List Grammar :=
  [ { pre := [[201,184],[207,376],[207,8482],[207,8212],[207,732]],
      suf := [[234],[234,8216],[234,8220],[234,8226],[234,8212]],
      charset := [206,177,206,178,206,179,206,180,206,181,206,182,206,183,
                  206,184,206,185,206,186,206,187,206,188,206,189,206,190,
                  206,191,207,8364,207,207,402,207,8222,207,8230,207,8224,
                  207,8225,207,710,207,8240],
      lo := 3, hi := 8 },
    { pre := [[206,8221],[206,732],[206,8250],[206],[206,160]],
      suf := [[226,402,8212],[226,402,8211],[226,402,8217],[226,402,8226],
              [226,402,8221]],
      charset := [226,710,8364,226,710,402,226,710,710,226,710,8240,226,710,
                  226,710,8216,226,710,353,226,710,8250,226,710,339,226,710],
      lo := 4, hi := 12 },
    { pre := [[226,190],[226,191],[226],[226,8218],[226,402]],
      suf := [[226,163],[226,164],[226,165],[226,166],[226,167]],
      charset := [226,186,226,181,226,180,226,183,226,184,226,185,226,186,
                  226,187,226,188,226,189,226,190,226,191],
      lo := 2, hi := 6 } ]

/-- `c.toUpperCase()` restricted to the code units reachable in generated
names; every other unit is its own uppercase form. -/
def upperUnit (c : Nat) : List Nat :=
  if c = 181 then [924] else if c = 226 then [194] else if c = 234 then [202]
  else if c = 339 then [338] else if c = 353 then [352]
  else if c = 402 then [401] else [c]

/-- Transform 1 of `applyTransforms`:
`s.replace(/./g, c => this.random() > 0.5 ? c : c.toUpperCase())`,
one draw per unit, in order. -/
def upperRandom : JSStr → Nat → JSStr × Nat
  | [], s => ([], s)
  | c :: cs, s =>
    let (u, s1) := rand s
    let head := if randGt u 1 2 then [c] else upperUnit c
    let (rest, s2) := upperRandom cs s1
    (head ++ rest, s2)

/-- The transform selected by `transforms[this.randomInt(0, 3)]`. -/
def applyOneTransform (ti : Nat) (str : JSStr) (s : Nat) : JSStr × Nat :=
  if ti = 0 then (str.reverse, s)
  else if ti = 1 then upperRandom str s
  else if ti = 2 then
    let (n, s1) := randomInt 100 999 s
    (str ++ [234, 8240] ++ jstr (toString n), s1)
  else ([226,184,168] ++ str ++ [226,184,169], s)

def applyTransformsLoop : Nat → JSStr → Nat → JSStr × Nat
  | 0, str, s => (str, s)
  | k+1, str, s =>
    let (ti, s1) := randomInt 0 3 s
    let (str', s2) := applyOneTransform ti str s1
    applyTransformsLoop k str' s2

/-- `applyTransforms(str)`: `randomInt(1, 3)` transforms applied in turn. -/
def applyTransforms (str : JSStr) (s : Nat) : JSStr × Nat :=
  let (n, s1) := randomInt 1 3 s
  applyTransformsLoop n str s1

/-- The `length`-many charset draws of `generateIdentifier`. -/
def charsLoop : Nat → JSStr → Nat → JSStr × Nat
  | 0, _, s => ([], s)
  | k+1, charset, s =>
    let (i, s1) := randomInt 0 (charset.length - 1) s
    let (rest, s2) := charsLoop k charset s1
    (charset.getD i 0 :: rest, s2)

/-- `generateIdentifier()`.  Note: the function keeps no record of the
identifiers it has already returned. -/
def generateIdentifier (s : Nat) : JSStr × Nat :=
  let (gi, s1) := randomInt 0 (grammars.length - 1) s
  let g := grammars.getD gi ⟨[], [], [], 0, 0⟩
  let (len, s2) := randomInt g.lo g.hi s1
  let (p, s3) := randomChoice g.pre s2
  let (core, s4) := charsLoop len g.charset s3
  let (sf, s5) := randomChoice g.suf s4
  let name := p ++ core ++ sf
  let (u, s6) := rand s5
  if randGt u 1 2 then applyTransforms name s6 else (name, s6)

end Ent

/-! ## String encryption (`ByteEncryptor`, src/src/engines/byte-encryptor.js) -/

namespace ByteEncryptor

/-- Stage 1 of `multiStageEncrypt`, per byte:
`b = ((b*7) ^ (b>>4)) & 0xFF; b = ((b*13) ^ (b<<3)) & 0xFF;
b = ((b*31) ^ (b>>5)) & 0xFF`. -/
def nonLinearByte (b : Nat) : Nat :=
  let b1 := ((b * 7) ^^^ (b / 16)) &&& 255
  let b2 := ((b1 * 13) ^^^ (b1 * 8)) &&& 255
  ((b2 * 31) ^^^ (b2 / 32)) &&& 255

def applyNonLinearTransform (bytes : List Nat) : List Nat :=
  bytes.map nonLinearByte

/-- Stage 2, `applyIndexTransform`: one key draw, then
`result[i] = (bytes[i] ^ key ^ ((i*17) % 256)) & 0xFF`. -/
def applyIndexTransform (bytes : List Nat) (s : Nat) : List Nat × Nat :=
  let (key, s') := Ent.randomInt 1 255 s
  (bytes.enum.map (fun p => (p.2 ^^^ key ^^^ ((p.1 * 17) % 256)) &&& 255), s')

/-- The Fisher–Yates loop of `applyTableRemap`, with
`j = Math.floor(this.entropy.random() * (i + 1))`; the counter argument is
the current `i`. -/
def shuffleLoop : Nat → List Nat → Nat → List Nat × Nat
  | 0, t, s => (t, s)
  | k+1, t, s =>
    let i := k + 1
    let (u, s1) := Ent.rand s
    let j := (u * (i + 1)) / Ent.U32MAX
    let ti := t.getD i 0
    let tj := t.getD j 0
    shuffleLoop k ((t.set i tj).set j ti) s1

/-- Stage 3, `applyTableRemap`: shuffle `[0,256)` and map each byte through
the shuffled table. -/
def applyTableRemap (bytes : List Nat) (s : Nat) : List Nat × Nat :=
  let (table, s') := shuffleLoop 255 (List.range 256) s
  (bytes.map (fun b => table.getD b 0), s')

/-- `multiStageEncrypt` composes the three stages. -/
def multiStageEncrypt (bytes : List Nat) (s : Nat) : List Nat × Nat :=
  let t1 := applyNonLinearTransform bytes
  let (t2, s1) := applyIndexTransform t1 s
  applyTableRemap t2 s1

/-- `findInverse(mult)`: first `i ∈ [1, 256)` with `(mult*i) % 256 = 1`,
else `1`. -/
def findInverse (mult : Nat) : Nat :=
  (((List.range 256).drop 1).find? (fun i => (mult * i) % 256 = 1)).getD 1

/-- `generateDecryptor` builds its "inverse" table from
`const table = new Array(256).fill(0)` — i.e. from the all-zero table, not
from the permutation actually used to encode.  `inverseTable[table[i]] = i`
then only ever writes slot 0 (last write wins: 255); all other slots stay
`undefined` (`none`). -/
def mkInverseTable (table : List Nat) : List (Option Nat) :=
  (List.range 256).foldl (fun acc i => acc.set (table.getD i 0) (some i))
    (List.replicate 256 none)

/-- The entropy draws of `generateDecryptor`, in source order: three
`generateIdentifier()` calls, then the `randomInt(1, 255)` embedded in the
decoder text (the decoder's XOR key, drawn afresh — not the key used by
`applyIndexTransform`). -/
structure DecoderParts where
  dName : JSStr
  tName : JSStr
  rName : JSStr
  k2 : Nat

def generateDecryptorDraws (s : Nat) : DecoderParts × Nat :=
  let (dName, s1) := Ent.generateIdentifier s
  let (tName, s2) := Ent.generateIdentifier s1
  let (rName, s3) := Ent.generateIdentifier s2
  let (k2, s4) := Ent.randomInt 1 255 s3
  (⟨dName, tName, rName, k2⟩, s4)

/-- `inverseTable.join(',')` — JS `join` renders the `undefined` holes as
empty strings. -/
def joinInvTable (t : List (Option Nat)) : JSStr :=
  List.intercalate (jstr ",")
    (t.map (fun x => (x.map (fun n => jstr (toString n))).getD []))

def joinBytes (bytes : List Nat) : JSStr :=
  List.intercalate (jstr ",") (bytes.map (fun n => jstr (toString n)))

/-- The template-literal body of `generateDecryptor`, after the final
`.trim()` (which strips the leading and trailing newline). -/
def renderDecoder (p : DecoderParts) (encBytes : List Nat) : JSStr :=
  jstr "local " ++ p.dName ++ jstr " = function(...)\n  local " ++ p.tName ++
  jstr " = \x7b" ++ joinInvTable (mkInverseTable (List.replicate 256 0)) ++
  jstr "\x7d\n  local " ++ p.rName ++
  jstr " = \"\"\n  local args = \x7b...\x7d\n  for i = 1, #args do\n    local b = args[i]\n    b = " ++
  p.tName ++ jstr "[b + 1] or 0\n    b = (b ~ " ++ jstr (toString p.k2) ++
  jstr ") + (i * 17) % 256\n    b = ((b * " ++
  jstr (toString (findInverse 31)) ++
  jstr ") ~ (b << 5)) & 0xFF\n    b = ((b * " ++
  jstr (toString (findInverse 13)) ++
  jstr ") ~ (b >> 3)) & 0xFF\n    b = ((b * " ++
  jstr (toString (findInverse 7)) ++
  jstr ") ~ (b << 4)) & 0xFF\n    " ++ p.rName ++ jstr " = " ++ p.rName ++
  jstr " .. string.char(b)\n  end\n  return " ++ p.rName ++
  jstr "\nend\n\n" ++ p.dName ++ jstr "(" ++ joinBytes encBytes ++ jstr ")"

/-- `generateDecryptor(encryptedBytes)`. -/
def generateDecryptor (encBytes : List Nat) (s : Nat) : JSStr × Nat :=
  let (p, s') := generateDecryptorDraws s
  (renderDecoder p encBytes, s')

/-- The byte transform performed by the emitted decoder body on the i-th
argument (1-based `i`), reading the emitted text as the Lua it is meant to
be: `b = t[b + 1] or 0; b = (b ~ k2) + (i * 17) % 256;
b = ((b * 223) ~ (b << 5)) & 0xFF; b = ((b * 197) ~ (b >> 3)) & 0xFF;
b = ((b * 183) ~ (b << 4)) & 0xFF`.  (The emitted table literal
`{255,,,…}` is not even syntactically valid Lua; we charitably read its
holes as `nil`, so `t[b+1] or 0` is 255 for `b = 0` and 0 otherwise.) -/
def luaDecodeByte (invT : List (Option Nat)) (k2 i b : Nat) : Nat :=
  let b1 := (invT.getD b none).getD 0
  let b2 := (b1 ^^^ k2) + (i * 17) % 256
  let b3 := ((b2 * findInverse 31) ^^^ (b2 * 32)) &&& 255
  let b4 := ((b3 * findInverse 13) ^^^ (b3 / 8)) &&& 255
  ((b4 * findInverse 7) ^^^ (b4 * 16)) &&& 255

/-- Running the emitted decoder over an emitted byte list (the decoder's
`for i = 1, #args` loop plus `string.char` concatenation). -/
def luaDecoderRun (k2 : Nat) (enc : List Nat) : List Nat :=
  enc.enum.map (fun p =>
    luaDecodeByte (mkInverseTable (List.replicate 256 0)) k2 (p.1 + 1) p.2)

end ByteEncryptor

/-! ## JS node values

The transformation passes traverse loosely-typed JS values: objects with
optional `type`, `value`, `condition`, `thenBlock` and `children`
properties, or plain strings (the control-flow pass stores its dispatcher
as a string directly in a `children` array).  Reading a property of a
string yields `undefined` (`none`). -/

inductive JsVal where
  | str : JSStr → JsVal
  | obj : Option JSStr → Option JSStr → Option JSStr → Option JSStr →
      Option (List JsVal) → JsVal

namespace JsVal

/-- `node.type` (`undefined` on strings). -/
def vtype : JsVal → Option JSStr
  | .str _ => none
  | .obj t _ _ _ _ => t

/-- `node.value`. -/
def vvalue : JsVal → Option JSStr
  | .str _ => none
  | .obj _ v _ _ _ => v

/-- `node.children`. -/
def vchildren : JsVal → Option (List JsVal)
  | .str _ => none
  | .obj _ _ _ _ c => c

end JsVal

/-! ## Rename pass (`IdentifierRenamer`, src/src/engines/identifier-renamer.js)

`this.mapping` is a single instance-wide `Map` from source names to fresh
names; there is no scope structure.  The `do … while` retry loop of
`generateUniqueName` has no bound in the source, so it is modelled with
fuel (`none` = the loop has not terminated within the fuel). -/

namespace Renamer

/-- `this.reserved = new Set(['local','function','if','then','else','end'])`. -/
def reservedNames : List JSStr :=
  [jstr "local", jstr "function", jstr "if", jstr "then", jstr "else",
   jstr "end"]

def reservedHas : Option JSStr → Bool
  | some x => reservedNames.any (· == x)
  | none => false

/-- The global mapping, keyed by `node.value` (a JS `Map` can key
`undefined`, hence `Option`). -/
abbrev Mapping := List (Option JSStr × JSStr)

def mapHasKey (m : Mapping) (k : Option JSStr) : Bool :=
  m.any (fun p => p.1 == k)

def mapGet (m : Mapping) (k : Option JSStr) : Option JSStr :=
  (m.find? (fun p => p.1 == k)).map (·.2)

/-- `name.includes(pat)` on code-unit lists. -/
def hasSub (hay needle : JSStr) : Bool :=
  (List.range (hay.length + 1)).any (fun i => needle.isPrefixOf (hay.drop i))

/-- `isCollision(name)`. -/
def isCollision (name : JSStr) : Bool :=
  [jstr "getfenv", jstr "setfenv", jstr "loadstring", jstr "require"].any
    (fun p => hasSub name p)

/-- `generateUniqueName()`: draw identifiers until one is neither a key of
`this.mapping` nor an `isCollision` hit. -/
def generateUniqueName : Nat → Mapping → Nat → Option (JSStr × Nat)
  | 0, _, _ => none
  | fuel+1, m, s =>
    let (name, s') := Ent.generateIdentifier s
    if mapHasKey m (some name) || isCollision name then
      generateUniqueName fuel m s'
    else
      some (name, s')

mutual

/-- `IdentifierRenamer.transform(node)`: rewrite every non-reserved
`identifier` node through the single global mapping, then recurse into
`children`. -/
def transform (fuel : Nat) (m : Mapping) (s : Nat) :
    JsVal → Option (JsVal × Mapping × Nat)
  | .str t => some (.str t, m, s)
  | .obj ty v c tb ch => do
    let (v', m1, s1) ←
      if ty = some (jstr "identifier") && !reservedHas v then
        if mapHasKey m v then
          some (mapGet m v, m, s)
        else do
          let (fresh, s') ← generateUniqueName fuel m s
          let m' := (v, fresh) :: m
          some (mapGet m' v, m', s')
      else
        some (v, m, s)
    match ch with
    | none => some (.obj ty v' c tb none, m1, s1)
    | some l => do
      let (l', m2, s2) ← transformList fuel m1 s1 l
      some (.obj ty v' c tb (some l'), m2, s2)

def transformList (fuel : Nat) (m : Mapping) (s : Nat) :
    List JsVal → Option (List JsVal × Mapping × Nat)
  | [] => some ([], m, s)
  | x :: xs => do
    let (x', m1, s1) ← transform fuel m s x
    let (xs', m2, s2) ← transformList fuel m1 s1 xs
    some (x' :: xs', m2, s2)

end

end Renamer

/-! ## Dead-code pass (`DeadCodeInjector`, src/src/engines/dead-code-injector.js)

`identifyInjectionPoints` records points for every descendant block, keyed
by JS object identity of the parent (modelled as the path from the node
`inject` was called on); `applyInjections` is only ever invoked on that
node itself, so only path-`[]` points are applied.  The
`'conditionalNoise'` generator calls `this.generateDeadStatement()`, a
method `DeadCodeInjector` does not have — a `TypeError` in JS, modelled as
`none`. -/

namespace DeadCode

def natStr (n : Nat) : JSStr := jstr (toString n)

def injectionTypes : List JSStr :=
  [jstr "fakeLoop", jstr "deadCalculation", jstr "mockFunction",
   jstr "stateMutation", jstr "conditionalNoise", jstr "tableOperations",
   jstr "stringManipulation", jstr "metatableNoise"]

def selectInjectionType (s : Nat) : JSStr × Nat :=
  Ent.randomChoice injectionTypes s

/-- An entry of `this.injectionPoints`: the identity of `parent` is the
path from the root of the `inject` call. -/
structure InjPoint where
  path : List Nat
  pos : Nat
  ity : JSStr

/-- The `numInjections` iterations: `pos = randomInt(0, len-1)`, then
`type = selectInjectionType()`. -/
def pointsLoop : Nat → Nat → Nat → List InjPoint × Nat
  | 0, _, s => ([], s)
  | k+1, len, s =>
    let (pos, s1) := Ent.randomInt 0 (len - 1) s
    let (ty, s2) := selectInjectionType s1
    let (rest, s3) := pointsLoop k len s2
    (⟨[], pos, ty⟩ :: rest, s3)

mutual

/-- `identifyInjectionPoints(node)`. -/
def identifyPoints (s : Nat) : JsVal → List InjPoint × Nat
  | .str _ => ([], s)
  | .obj _ _ _ _ ch =>
    match ch with
    | none => ([], s)
    | some l =>
      if l.length = 0 then ([], s)
      else
        let maxInj := min 10 ((3 * l.length) / 10)
        let (numInj, s1) := Ent.randomInt 1 maxInj s
        let (own, s2) := pointsLoop numInj l.length s1
        let (sub, s3) := identifyPointsList 0 s2 l
        (own ++ sub, s3)

def identifyPointsList (i : Nat) (s : Nat) : List JsVal → List InjPoint × Nat
  | [] => ([], s)
  | x :: xs =>
    let (px, s1) := identifyPoints s x
    let (pxs, s2) := identifyPointsList (i+1) s1 xs
    (px.map (fun p => { p with path := i :: p.path }) ++ pxs, s2)

end

/-- `generateRandomString()`. -/
def randomStringChars : JSStr :=
  jstr "ABCDEFGHIJKLMNOPQRSTUVWXYZabcdefghijklmnopqrstuvwxyz0123456789"

def randomStringLoop : Nat → Nat → JSStr × Nat
  | 0, s => ([], s)
  | k+1, s =>
    let (i, s1) := Ent.randomInt 0 (randomStringChars.length - 1) s
    let (rest, s2) := randomStringLoop k s1
    (randomStringChars.getD i 0 :: rest, s2)

def generateRandomString (s : Nat) : JSStr × Nat :=
  let (len, s1) := Ent.randomInt 5 20 s
  randomStringLoop len s1

/-- `generateFakeLoop()`. -/
def generateFakeLoop (s : Nat) : JsVal × Nat :=
  let (varName, s1) := Ent.generateIdentifier s
  let (limit, s2) := Ent.randomInt 10 100 s1
  let (g1, s3) := Ent.generateIdentifier s2
  let text :=
    jstr "\nfor " ++ varName ++ jstr " = 1, " ++ natStr limit ++
    jstr " do\n  if " ++ varName ++ jstr " == " ++ natStr limit ++
    jstr " then\n    break\n  end\n  local " ++ g1 ++
    jstr " = math.sin(" ++ varName ++ jstr ")\nend\n"
  (.obj (some (jstr "block")) (some text) none none none, s3)

/-- `generateDeadCalculation()`. -/
def generateDeadCalculation (s : Nat) : JsVal × Nat :=
  let (var1, s1) := Ent.generateIdentifier s
  let (var2, s2) := Ent.generateIdentifier s1
  let (var3, s3) := Ent.generateIdentifier s2
  let (r0, s4) := Ent.randomInt 2 10 s3
  let (r2, s5) := Ent.randomInt 1 255 s4
  let (r3, s6) := Ent.randomInt 1 100 s5
  let c0 := var1 ++ jstr " = (" ++ var2 ++ jstr " * 3.14159) / " ++ natStr r0
  let c1 := var3 ++ jstr " = math.log(math.abs(" ++ var1 ++ jstr ") + 1)"
  let c2 := var2 ++ jstr " = bit32.bxor(" ++ var3 ++ jstr ", " ++ natStr r2
    ++ jstr ")"
  let c3 := var1 ++ jstr " = string.format(\"%.3f\", " ++ var2 ++ jstr " / "
    ++ natStr r3 ++ jstr ")"
  let text := jstr "local " ++ var1 ++ jstr ", " ++ var2 ++ jstr ", " ++
    var3 ++ jstr " = 0, 0, 0\n" ++ c0 ++ jstr "\n" ++ c1 ++ jstr "\n" ++
    c2 ++ jstr "\n" ++ c3 ++ jstr "\n"
  (.obj (some (jstr "block")) (some text) none none none, s6)

/-- `generateMockFunction()`. -/
def generateMockFunction (s : Nat) : JsVal × Nat :=
  let (funcName, s1) := Ent.generateIdentifier s
  let (param1, s2) := Ent.generateIdentifier s1
  let (param2, s3) := Ent.generateIdentifier s2
  let (g1, s4) := Ent.generateIdentifier s3
  let (g2, s5) := Ent.generateIdentifier s4
  let (g3, s6) := Ent.generateIdentifier s5
  let (r1, s7) := Ent.randomInt 1 5 s6
  let (g4, s8) := Ent.generateIdentifier s7
  let (g5, s9) := Ent.generateIdentifier s8
  let (g6, s10) := Ent.generateIdentifier s9
  let (g7, s11) := Ent.generateIdentifier s10
  let text :=
    jstr "\nlocal function " ++ funcName ++ jstr "(" ++ param1 ++ jstr ", "
    ++ param2 ++ jstr ")\n  local " ++ g1 ++ jstr " = " ++ param1 ++
    jstr " + " ++ param2 ++ jstr "\n  local " ++ g2 ++ jstr " = " ++ param1
    ++ jstr " * " ++ param2 ++ jstr "\n  local " ++ g3 ++
    jstr " = math.sqrt(math.abs(" ++ param1 ++
    jstr "))\n  \n  for i = 1, " ++ natStr r1 ++ jstr " do\n    " ++ g4 ++
    jstr " = " ++ g5 ++ jstr " * i\n  end\n  \n  return " ++ g6 ++
    jstr "\nend\n\n-- Never called\nlocal " ++ g7 ++ jstr " = " ++ funcName
    ++ jstr "\n"
  (.obj (some (jstr "function")) (some text) none none none, s11)

/-- `generateStateMutation()`. -/
def generateStateMutation (s : Nat) : JsVal × Nat :=
  let (tableName, s1) := Ent.generateIdentifier s
  let (metatableName, s2) := Ent.generateIdentifier s1
  let (r1, s3) := Ent.randomInt 1 100 s2
  let (r2, s4) := Ent.randomInt 1 10 s3
  let (g1, s5) := Ent.generateIdentifier s4
  let (r3, s6) := Ent.randomInt 1 100 s5
  let (g2, s7) := Ent.generateIdentifier s6
  let (g3, s8) := Ent.generateIdentifier s7
  let text :=
    jstr "\nlocal " ++ tableName ++ jstr " = \x7b\x7d\nlocal " ++
    metatableName ++
    jstr " = \x7b\n  __index = function(t, k)\n    return k == \"secret\" and "
    ++ natStr r1 ++
    jstr " or nil\n  end,\n  __newindex = function(t, k, v)\n    rawset(t, \"_\" .. k, v * "
    ++ natStr r2 ++ jstr ")\n  end\n\x7d\n\nsetmetatable(" ++ tableName ++
    jstr ", " ++ metatableName ++ jstr ")\n\n" ++ tableName ++ jstr "." ++
    g1 ++ jstr " = " ++ natStr r3 ++ jstr "\nlocal " ++ g2 ++ jstr " = " ++
    tableName ++ jstr "." ++ g3 ++ jstr "\n"
  (.obj (some (jstr "block")) (some text) none none none, s8)

/-- One `${tableName}[${key}] = ${value}` line of
`generateTableOperations`. -/
def tableOpLine (tableName : JSStr) (s : Nat) : JSStr × Nat :=
  let (u1, s1) := Ent.rand s
  let (key, s2) :=
    if Ent.randGt u1 1 2 then
      let (g, s') := Ent.generateIdentifier s1
      (jstr "\"" ++ g ++ jstr "\"", s')
    else
      let (n, s') := Ent.randomInt 1 100 s1
      (natStr n, s')
  let (u2, s3) := Ent.rand s2
  let (val, s4) :=
    if Ent.randGt u2 1 2 then (jstr "math.random()", s3)
    else
      let (g, s') := Ent.generateIdentifier s3
      (jstr "\"" ++ g ++ jstr "\"", s')
  (tableName ++ jstr "[" ++ key ++ jstr "] = " ++ val ++ jstr "\n", s4)

def tableOpsLoop : Nat → JSStr → Nat → JSStr × Nat
  | 0, _, s => ([], s)
  | k+1, tableName, s =>
    let (line, s1) := tableOpLine tableName s
    let (rest, s2) := tableOpsLoop k tableName s1
    (line ++ rest, s2)

/-- `generateTableOperations()`. -/
def generateTableOperations (s : Nat) : JsVal × Nat :=
  let (tableName, s1) := Ent.generateIdentifier s
  let (ops, s2) := Ent.randomInt 5 20 s1
  let (lines, s3) := tableOpsLoop ops tableName s2
  let text := jstr "local " ++ tableName ++ jstr " = \x7b\x7d\n" ++ lines ++
    jstr "\nfor k, v in pairs(" ++ tableName ++ jstr ") do\n  " ++
    tableName ++ jstr "[k] = nil\nend\n"
  (.obj (some (jstr "block")) (some text) none none none, s3)

/-- `generateStringManipulation()`.

In the source the four `ops` template strings are all built before
`randomChoice` picks one, but only the `${this.generateRandomString()}`
in `ops[0]` consumes entropy; `randomChoice(ops)` is one more draw.  The
draw order per line is therefore: build the concatenation string (one
`generateRandomString`), then the choice. -/
def stringManipLineSrc (strVar : JSStr) (s : Nat) : JSStr × Nat :=
  let (r, s1) := generateRandomString s
  let ops := [strVar ++ jstr " = " ++ strVar ++ jstr " .. \"" ++ r ++
              jstr "\"",
              strVar ++ jstr " = string.reverse(" ++ strVar ++ jstr ")",
              strVar ++ jstr " = string.sub(" ++ strVar ++ jstr ", 2, -2)",
              strVar ++ jstr " = string.gsub(" ++ strVar ++
              jstr ", \".\", function(c) return string.byte(c) end)"]
  Ent.randomChoice ops s1

def stringManipLoopSrc : Nat → JSStr → Nat → JSStr × Nat
  | 0, _, s => ([], s)
  | k+1, strVar, s =>
    let (line, s1) := stringManipLineSrc strVar s
    let (rest, s2) := stringManipLoopSrc k strVar s1
    (line ++ jstr "\n" ++ rest, s2)

def generateStringManipulation (s : Nat) : JsVal × Nat :=
  let (strVar, s1) := Ent.generateIdentifier s
  let (ops, s2) := Ent.randomInt 3 10 s1
  let (r0, s3) := generateRandomString s2
  let (lines, s4) := stringManipLoopSrc ops strVar s3
  let text := jstr "local " ++ strVar ++ jstr " = \"" ++ r0 ++ jstr "\"\n"
    ++ lines
  (.obj (some (jstr "block")) (some text) none none none, s4)

/-- `generateMetatableNoise()`. -/
def generateMetatableNoise (s : Nat) : JsVal × Nat :=
  let (objName, s1) := Ent.generateIdentifier s
  let (metaName, s2) := Ent.generateIdentifier s1
  let (g1, s3) := Ent.generateIdentifier s2
  let (g2, s4) := Ent.generateIdentifier s3
  let (r1, s5) := Ent.randomInt 1 5 s4
  let text :=
    jstr "\nlocal " ++ objName ++ jstr " = \x7b\x7d\nlocal " ++ metaName ++
    jstr " = \x7b\n  __add = function(a, b) return math.random(100) end,\n  __sub = function(a, b) return #tostring(a) end,\n  __mul = function(a, b) return os.clock() % 1 end,\n  __div = function(a, b) return (a or 0) / (b or 1) end,\n  __call = function(self, ...) \n    return table.concat(\x7b...\x7d, \",\")\n  end\n\x7d\n\nsetmetatable("
    ++ objName ++ jstr ", " ++ metaName ++ jstr ")\n\nlocal " ++ g1 ++
    jstr " = " ++ objName ++ jstr " + " ++ objName ++ jstr "\nlocal " ++ g2
    ++ jstr " = " ++ objName ++ jstr "(" ++ natStr r1 ++ jstr ")\n"
  (.obj (some (jstr "block")) (some text) none none none, s5)

/-- `generateInjection(type)`.  `'conditionalNoise'` throws
(`this.generateDeadStatement` is not a function), hence `none`. -/
def generateInjection (ty : JSStr) (s : Nat) : Option (JsVal × Nat) :=
  if ty = jstr "fakeLoop" then some (generateFakeLoop s)
  else if ty = jstr "deadCalculation" then some (generateDeadCalculation s)
  else if ty = jstr "mockFunction" then some (generateMockFunction s)
  else if ty = jstr "stateMutation" then some (generateStateMutation s)
  else if ty = jstr "conditionalNoise" then none
  else if ty = jstr "tableOperations" then some (generateTableOperations s)
  else if ty = jstr "stringManipulation" then
    some (generateStringManipulation s)
  else if ty = jstr "metatableNoise" then some (generateMetatableNoise s)
  else some (.obj (some (jstr "comment")) (some (jstr "-- dead code"))
    none none none, s)

/-- `children.splice(pos, 0, a)`. -/
def spliceIns (l : List JsVal) (pos : Nat) (a : JsVal) : List JsVal :=
  l.take pos ++ [a] ++ l.drop pos

/-- `applyInjections(node)`: every recorded point whose `parent` is the
node itself (path `[]`) splices one generated statement into its
children; other points never match. -/
def applyInjections (pts : List InjPoint) (children : List JsVal)
    (s : Nat) : Option (List JsVal × Nat) :=
  match pts with
  | [] => some (children, s)
  | p :: rest =>
    if p.path = [] then do
      let (inj, s1) ← generateInjection p.ity s
      applyInjections rest (spliceIns children p.pos inj) s1
    else
      applyInjections rest children s

/-- `inject(node)`: identify, then apply on the same node. -/
def inject (s : Nat) (node : JsVal) : Option (JsVal × Nat) :=
  let (pts, s1) := identifyPoints s node
  match node with
  | .str t => some (.str t, s1)
  | .obj ty v c tb ch =>
    match ch with
    | none => some (.obj ty v c tb none, s1)
    | some l => do
      let (l', s2) ← applyInjections pts l s1
      some (.obj ty v c tb (some l'), s2)

end DeadCode

/-! ## Control-flow pass (`ControlFlowObfuscator`, src/src/engines/control-flow.js)

`generateOpaquePredicate` builds five template strings (consuming the
entropy of every template's embedded draws) and picks one.  The structured
form `OPred` records the chosen template and its sampled constants;
`renderOPred` produces exactly the source's string. -/

namespace ControlFlow

def natStr (n : Nat) : JSStr := jstr (toString n)

/-- The five predicate templates of `generateOpaquePredicate`, with their
sampled constants.  `n` is `this.predicateCount` after the increment. -/
inductive OPred where
  | sinMod (n r : Nat)
  | bxorGt (n a b : Nat)
  | byteMod (n m : Nat)
  | clockMod (a b : Nat)
  | concatTrue (n : Nat)
deriving DecidableEq

/-- The exact template strings of lines 31–37 of the source. -/
def renderOPred : OPred → JSStr
  | .sinMod n r =>
    jstr "(math.sin(" ++ natStr n ++ jstr ") * 1000) % 2 == " ++ natStr r
  | .bxorGt n a b =>
    jstr "bit32.bxor(" ++ natStr n ++ jstr ", " ++ natStr a ++ jstr ") > "
    ++ natStr b
  | .byteMod n m =>
    jstr "string.byte(\"X\", 1) * " ++ natStr n ++ jstr " % " ++ natStr m
    ++ jstr " == 0"
  | .clockMod a b =>
    jstr "os.clock() * " ++ natStr a ++ jstr " % " ++ natStr b ++
    jstr " ~= 0"
  | .concatTrue n =>
    jstr "table.concat(\x7b\"a\", \"b\", \"c\"\x7d) ~= \"\" and " ++
    natStr n ++ jstr " * 0 == 0"

/-- `generateOpaquePredicate()` with the predicate kept structured: the
count is incremented, each template's embedded draws are taken in source
order, and `randomChoice(predicates)` draws the selector. -/
def generateOPredicateStruct (cnt s : Nat) : OPred × Nat × Nat :=
  let c := cnt + 1
  let (a0, s1) := Ent.randomInt 0 1 s
  let (a1, s2) := Ent.randomInt 1 255 s1
  let (a2, s3) := Ent.randomInt 0 127 s2
  let (a3, s4) := Ent.randomInt 2 11 s3
  let (a4, s5) := Ent.randomInt 100 1000 s4
  let (a5, s6) := Ent.randomInt 2 5 s5
  let (idx, s7) := Ent.randomInt 0 4 s6
  let p : OPred :=
    if idx = 0 then .sinMod c a0
    else if idx = 1 then .bxorGt c a1 a2
    else if idx = 2 then .byteMod c a3
    else if idx = 3 then .clockMod a4 a5
    else .concatTrue c
  (p, c, s7)

/-- `generateOpaquePredicate()` as the source returns it: a string. -/
def generateOPredicate (cnt s : Nat) : JSStr × Nat × Nat :=
  let (p, c, s') := generateOPredicateStruct cnt s
  (renderOPred p, c, s')

/-- Lua's `%` on numbers: `a % b = a - floor(a/b)*b`. -/
def luaMod (x y : ℚ) : ℚ := x - y * ⌊x / y⌋

/-- The value of a generated predicate in the emitted program, as a
function of the execution environment: `sinv n` is the runtime's
`math.sin(n)` and `clock` is the value of `os.clock()` at the moment the
predicate is evaluated. -/
def evalOPred (sinv : Nat → ℚ) (clock : ℚ) : OPred → Bool
  | .sinMod n r => luaMod (sinv n * 1000) 2 = (r : ℚ)
  | .bxorGt n a b => Nat.xor n a > b
  | .byteMod n m => (88 * n) % m = 0
  | .clockMod a b => ¬ luaMod (clock * a) b = 0
  | .concatTrue n => jstr "abc" ≠ jstr "" ∧ n * 0 = 0

/-- `combineConditions(original, predicate)`: random `and`/`or`, random
side. -/
def combineConditions (original pred : JSStr) (s : Nat) : JSStr × Nat :=
  let (comb, s1) := Ent.randomChoice [jstr "and", jstr "or"] s
  let (u, s2) := Ent.rand s1
  if Ent.randGt u 1 2 then
    (jstr "(" ++ original ++ jstr " " ++ comb ++ jstr " " ++ pred ++
     jstr ")", s2)
  else
    (jstr "(" ++ pred ++ jstr " " ++ comb ++ jstr " " ++ original ++
     jstr ")", s2)

/-- `generateDeadStatement()`: the five statement templates are all built
(each embedded draw consumed, in source order), then one is chosen. -/
def generateDeadStatementCF (s : Nat) : JSStr × Nat :=
  let (g0, s1) := Ent.generateIdentifier s
  let (g1, s2) := Ent.generateIdentifier s1
  let (g2, s3) := Ent.generateIdentifier s2
  let (r2, s4) := Ent.randomInt 1 100 s3
  let (g3, s5) := Ent.generateIdentifier s4
  let (r4, s6) := Ent.randomInt 1 10 s5
  let stmts :=
    [jstr "local " ++ g0 ++ jstr " = math.random()",
     g1 ++ jstr " = \x7b\x7d",
     jstr "table.insert(" ++ g2 ++ jstr ", " ++ natStr r2 ++ jstr ")",
     jstr "if false then " ++ g3 ++ jstr "() end",
     jstr "for i = 1, " ++ natStr r4 ++ jstr " do break end"]
  Ent.randomChoice stmts s6

def deadBlockLoop : Nat → Nat → JSStr × Nat
  | 0, s => ([], s)
  | k+1, s =>
    let (stmt, s1) := generateDeadStatementCF s
    let (rest, s2) := deadBlockLoop k s1
    (stmt ++ jstr ";" ++ rest, s2)

/-- `generateDeadBlock()`. -/
def generateDeadBlock (s : Nat) : JSStr × Nat :=
  let (n, s1) := Ent.randomInt 1 5 s
  let (body, s2) := deadBlockLoop n s1
  (jstr "\x7b" ++ body ++ jstr "\x7d", s2)

/-- `statementToString(stmt)`: strings pass through; otherwise
`stmt.value` when truthy (non-empty), else the literal
`'-- statement'`. -/
def statementToString : JsVal → JSStr
  | .str t => t
  | .obj _ v _ _ _ =>
    match v with
    | some x => if x = [] then jstr "-- statement" else x
    | none => jstr "-- statement"

/-- `generateNextState(current, total)`: the four pattern strings are
built (pattern 3's `randomInt(1, 255)` is consumed), then one is chosen.
Pattern 2 as written in the source
(`` `${current % ${total}} + 1` ``) is not legal JavaScript — a nested
`${}` without backticks; it is modelled by its apparent intent
`current % total + 1` rendered as a constant. -/
def generateNextState (current total s : Nat) : JSStr × Nat :=
  let (r, s1) := Ent.randomInt 1 255 s
  let pats :=
    [natStr (current + 2),
     jstr "math.random(1, " ++ natStr total ++ jstr ")",
     natStr (current % total) ++ jstr " + 1",
     jstr "bit32.bxor(" ++ natStr current ++ jstr ", " ++ natStr r ++
     jstr ") % " ++ natStr total ++ jstr " + 1"]
  Ent.randomChoice pats s1

/-- The per-statement loop of `generateDispatcher`: a (discarded) case
label identifier, then the case text. -/
def dispatcherCases (sv : JSStr) : Nat → List JsVal → Nat → Nat →
    JSStr × Nat
  | _, [], _, s => ([], s)
  | total, stmt :: rest, i, s =>
    let (_, s1) := Ent.generateIdentifier s
    let (next, s2) := generateNextState i total s1
    let case :=
      jstr "  [" ++ natStr (i + 1) ++ jstr "] = function()\n    " ++
      statementToString stmt ++ jstr "\n    " ++ sv ++ jstr " = " ++ next
      ++ jstr "\n  end,\n"
    let (restTxt, s3) := dispatcherCases sv total rest (i + 1) s2
    (case ++ restTxt, s3)

/-- `generateDispatcher(statements)`. -/
def generateDispatcher (stmts : List JsVal) (s : Nat) : JSStr × Nat :=
  let (dv, s1) := Ent.generateIdentifier s
  let (sv, s2) := Ent.generateIdentifier s1
  let (cases, s3) := dispatcherCases sv stmts.length stmts 0 s2
  (jstr "\nlocal " ++ sv ++ jstr " = 1\nlocal " ++ dv ++ jstr " = \x7b\n"
   ++ cases ++ jstr "\x7d\n\nwhile " ++ sv ++ jstr " and " ++ dv ++
   jstr "[" ++ sv ++ jstr "] do\n  " ++ dv ++ jstr "[" ++ sv ++
   jstr "]()\nend", s3)

/-- `flattenControlFlow(node)`, acting on the node's children: any array
of at least two statements — whatever they contain — is replaced by the
single dispatcher string. -/
def flattenControlFlow (children : List JsVal) (s : Nat) :
    List JsVal × Nat :=
  if children.length < 2 then (children, s)
  else
    let (d, s') := generateDispatcher children s
    ([.str d], s')

/-- The unshift loop of `injectOpaquePredicates`. -/
def injectLoop (cnt : Nat) : Nat → List JsVal → Nat →
    List JsVal × Nat × Nat
  | 0, children, s => (children, cnt, s)
  | k+1, children, s =>
    let (pred, c1, s1) := generateOPredicate cnt s
    let (dead, s2) := generateDeadBlock s1
    let child : JsVal := .obj (some (jstr "if")) none (some pred)
      (some dead) none
    injectLoop c1 k (child :: children) s2

/-- `injectOpaquePredicates(node)`. -/
def injectOPredicates (children : List JsVal) (cnt s : Nat) :
    List JsVal × Nat × Nat :=
  let (num, s1) := Ent.randomInt 1 5 s
  injectLoop cnt num children s1

/-- `obfuscateCondition(node)`: replaces `node.condition` (stringifying
`undefined` when absent, as the template literal does). -/
def obfuscateCondition (cond : Option JSStr) (cnt s : Nat) :
    JSStr × Nat × Nat :=
  let (pred, c1, s1) := generateOPredicate cnt s
  let (nc, s2) := combineConditions (cond.getD (jstr "undefined")) pred s1
  (nc, c1, s2)

mutual

/-- `obfuscateFlow(node)`: condition rewrite for `if`/`while`/`for`
nodes, predicate injection plus flattening for `block` nodes (a `block`
node without a `children` array crashes on `unshift`: `none`), then
recursion into the (possibly rewritten) children.  The recursion follows
the freshly written `node.children`, which is not structurally smaller,
so it carries fuel; the JS walk always terminates, and every theorem
below quantifies over or instantiates the fuel. -/
def obfuscateFlow (cnt s : Nat) : Nat → JsVal → Option (JsVal × Nat × Nat)
  | _, .str t => some (.str t, cnt, s)
  | 0, .obj _ _ _ _ _ => none
  | fuel+1, .obj ty v c tb ch => do
    let (c', cnt1, s1) :=
      if ty = some (jstr "if") || ty = some (jstr "while") ||
         ty = some (jstr "for") then
        let (nc, c1, s') := obfuscateCondition c cnt s
        (some nc, c1, s')
      else (c, cnt, s)
    let (ch', cnt2, s2) ←
      if ty = some (jstr "block") then
        match ch with
        | none => none
        | some l =>
          let (l1, c2, s') := injectOPredicates l cnt1 s1
          let (l2, s'') := flattenControlFlow l1 s'
          some (some l2, c2, s'')
      else some (ch, cnt1, s1)
    match ch' with
    | none => some (.obj ty v c' tb none, cnt2, s2)
    | some l => do
      let (l', cnt3, s3) ← obfuscateFlowList cnt2 s2 fuel l
      some (.obj ty v c' tb (some l'), cnt3, s3)

def obfuscateFlowList (cnt s : Nat) :
    Nat → List JsVal → Option (List JsVal × Nat × Nat)
  | _, [] => some ([], cnt, s)
  | fuel, x :: xs => do
    let (x', cnt1, s1) ← obfuscateFlow cnt s fuel x
    let (xs', cnt2, s2) ← obfuscateFlowList cnt1 s1 fuel xs
    some (x' :: xs', cnt2, s2)

end

end ControlFlow

/-! ## Expression parser (`LuauParser`, src/src/parsers/luau-parser.js)

Tokens carry the tokenizer's `type` (a category name such as
`'identifier'`, `'operator'`, `'punctuation'`) and `value` (the lexeme).
The parser functions are embedded with an index into a fixed token list
and fuel for the non-structural loops; `none` models a thrown
`Error`/non-termination.  Note that `matchToken('(')`, `matchToken(',')`,
etc. compare the *type* against a literal lexeme, so several branches are
unreachable on real tokenizer output; they are embedded as written. -/

namespace Parser

structure Tok where
  ttype : JSStr
  tvalue : JSStr

/-- `this.tokens[p] || { type: 'EOF', value: '' }`. -/
def curTok (toks : List Tok) (p : Nat) : Tok :=
  (toks.get? p).getD ⟨jstr "EOF", []⟩

mutual

/-- The parser's AST expressions.  `Number` stores `parseFloat(value)` in
the source; the lexeme (`\d+(\.\d+)?`) is kept instead of the IEEE double
it denotes — none of the evaluations below involve number tokens. -/
inductive Expr where
  | num : JSStr → Expr
  | strE : JSStr → Expr
  | varE : JSStr → Expr
  | member : Expr → JSStr → Expr
  | indexE : Expr → Expr → Expr
  | methodCall : Expr → JSStr → List Expr → Expr
  | call : Expr → List Expr → Expr
  | binop : JSStr → Expr → Expr → Expr
  | unop : JSStr → Expr → Expr
  | table : List TField → Expr

inductive TField where
  | indexF : Expr → Expr → TField
  | namedF : JSStr → Expr → TField
  | arrayF : Expr → TField

end

/-- The `precedences` table of `parseBinaryExpression` (looked up by the
token's *value*). -/
def precOf (v : JSStr) : Option Nat :=
  if v = jstr "or" then some 1
  else if v = jstr "and" then some 2
  else if v = jstr "<" ∨ v = jstr ">" ∨ v = jstr "<=" ∨ v = jstr ">=" ∨
          v = jstr "~=" ∨ v = jstr "==" then some 3
  else if v = jstr ".." then some 4
  else if v = jstr "+" ∨ v = jstr "-" then some 5
  else if v = jstr "*" ∨ v = jstr "/" ∨ v = jstr "%" then some 6
  else if v = jstr "^" then some 7
  else none

/-- The defunctionalized state of the mutually recursive parse functions:
which source function is executing, with its non-positional arguments. -/
inductive PMode where
  | bin (minPrec : Nat)
  | binloop (minPrec : Nat) (left : Expr)
  | unary
  | primary
  | varcall
  | pvar
  | varloop (e : Expr)
  | funccall
  | arglist
  | argloop (acc : List Expr)
  | ptable
  | tableloop (fields : List TField)

/-- A parse result: an expression or an argument list, with the next
token position. -/
inductive PRes where
  | expr (e : Expr) (pos : Nat)
  | exprs (es : List Expr) (pos : Nat)

/-- The mutually recursive expression-parser functions of the source,
merged into one fuel-indexed function so that evaluation is structural.
Each `PMode` case is one source function:

* `.bin minPrec` — `parseBinaryExpression(minPrecedence)`: parse a unary
  expression, then climb.
* `.binloop minPrec left` — the `while (true)` climb loop: stop when the
  current token's value has no precedence or binds below `minPrecedence`,
  otherwise consume it and recurse with `precedence + 1` — so every
  operator, `..` and `^` included, associates to the left.
* `.unary` — `parseUnaryExpression()`: `matchToken('-')`/`'not'`/`'#'`
  compare the token *type* against those lexemes, which the tokenizer
  never yields as types; embedded as written.
* `.primary` — `parsePrimaryExpression()` (the `'('`/`'{'` cases likewise
  switch on the token *type*).
* `.varcall` — `parseVariableOrCall()`: parse a variable, then on
  `'('`/`'{'`/`'string'` look-ahead rewind and reparse as a call.
* `.pvar`/`.varloop` — `parseVariable()` and its member/index/method
  loop (a `:` not followed by `(` drops the consumed tokens and loops).
* `.funccall` — `parseFunctionCall()`.
* `.arglist`/`.argloop` — `parseArgList()` and its comma loop.
* `.ptable`/`.tableloop` — `parseTable()`; after a field the source
  consumes a `','`-*typed* token unless a `'}'`-*typed* token follows,
  and the tokenizer produces neither type, so on real input the consume
  throws (`none`). -/
def parseStep (toks : List Tok) : Nat → PMode → Nat → Option PRes
  | 0, _, _ => none
  | fuel+1, mode, p =>
    match mode with
    | .bin minPrec =>
      match parseStep toks fuel .unary p with
      | some (.expr left p1) => parseStep toks fuel (.binloop minPrec left) p1
      | _ => none
    | .binloop minPrec left =>
      let t := curTok toks p
      match precOf t.tvalue with
      | none => some (.expr left p)
      | some prec =>
        if prec < minPrec then some (.expr left p)
        else
          match parseStep toks fuel (.bin (prec + 1)) (p + 1) with
          | some (.expr right p1) =>
            parseStep toks fuel (.binloop minPrec (.binop t.tvalue left right)) p1
          | _ => none
    | .unary =>
      let t := curTok toks p
      if t.ttype = jstr "-" ∨ t.ttype = jstr "not" ∨ t.ttype = jstr "#" then
        match parseStep toks fuel .unary (p + 1) with
        | some (.expr arg p1) => some (.expr (.unop t.tvalue arg) p1)
        | _ => none
      else parseStep toks fuel .primary p
    | .primary =>
      let t := curTok toks p
      if t.ttype = jstr "number" then some (.expr (.num t.tvalue) (p + 1))
      else if t.ttype = jstr "string" then
        some (.expr (.strE (t.tvalue.drop 1).dropLast) (p + 1))
      else if t.ttype = jstr "identifier" then
        parseStep toks fuel .varcall p
      else if t.ttype = jstr "(" then
        match parseStep toks fuel (.bin 0) (p + 1) with
        | some (.expr e p1) =>
          if (curTok toks p1).ttype = jstr ")" then some (.expr e (p1 + 1))
          else none
        | _ => none
      else if t.ttype = jstr "\x7b" then parseStep toks fuel .ptable p
      else none
    | .varcall =>
      match parseStep toks fuel .pvar p with
      | some (.expr v p1) =>
        let t := curTok toks p1
        if t.ttype = jstr "(" ∨ t.ttype = jstr "\x7b" ∨
           t.ttype = jstr "string" then
          parseStep toks fuel .funccall p
        else some (.expr v p1)
      | _ => none
    | .pvar =>
      let t := curTok toks p
      if t.ttype = jstr "identifier" then
        parseStep toks fuel (.varloop (.varE t.tvalue)) (p + 1)
      else none
    | .varloop e =>
      let t := curTok toks p
      if t.ttype = jstr "." then
        let nt := curTok toks (p + 1)
        if nt.ttype = jstr "identifier" then
          parseStep toks fuel (.varloop (.member e nt.tvalue)) (p + 2)
        else none
      else if t.ttype = jstr "[" then
        match parseStep toks fuel (.bin 0) (p + 1) with
        | some (.expr idx p1) =>
          if (curTok toks p1).ttype = jstr "]" then
            parseStep toks fuel (.varloop (.indexE e idx)) (p1 + 1)
          else none
        | _ => none
      else if t.ttype = jstr ":" ∧
          (curTok toks (p + 1)).ttype = jstr "identifier" then
        let m := (curTok toks (p + 1)).tvalue
        if (curTok toks (p + 2)).ttype = jstr "(" then
          match parseStep toks fuel .arglist (p + 3) with
          | some (.exprs args p1) =>
            if (curTok toks p1).ttype = jstr ")" then
              some (.expr (.methodCall e m args) (p1 + 1))
            else none
          | _ => none
        else parseStep toks fuel (.varloop e) (p + 2)
      else some (.expr e p)
    | .funccall =>
      match parseStep toks fuel .primary p with
      | some (.expr pfx p1) =>
        let t := curTok toks p1
        if t.ttype = jstr ":" then
          if (curTok toks (p1 + 1)).ttype = jstr "identifier" ∧
             (curTok toks (p1 + 2)).ttype = jstr "(" then
            match parseStep toks fuel .arglist (p1 + 3) with
            | some (.exprs args p2) =>
              if (curTok toks p2).ttype = jstr ")" then
                some (.expr (.methodCall pfx (curTok toks (p1 + 1)).tvalue args)
                  (p2 + 1))
              else none
            | _ => none
          else none
        else if t.ttype = jstr "(" then
          match parseStep toks fuel .arglist (p1 + 1) with
          | some (.exprs args p2) =>
            if (curTok toks p2).ttype = jstr ")" then
              some (.expr (.call pfx args) (p2 + 1))
            else none
          | _ => none
        else if t.ttype = jstr "\x7b" ∨ t.ttype = jstr "string" then
          match parseStep toks fuel .primary p1 with
          | some (.expr arg p2) => some (.expr (.call pfx [arg]) p2)
          | _ => none
        else some (.expr pfx p1)
      | _ => none
    | .arglist =>
      if (curTok toks p).ttype = jstr ")" then some (.exprs [] p)
      else
        match parseStep toks fuel (.bin 0) p with
        | some (.expr e p1) => parseStep toks fuel (.argloop [e]) p1
        | _ => none
    | .argloop acc =>
      if (curTok toks p).ttype = jstr "," then
        match parseStep toks fuel (.bin 0) (p + 1) with
        | some (.expr e p1) => parseStep toks fuel (.argloop (acc ++ [e])) p1
        | _ => none
      else some (.exprs acc p)
    | .ptable => parseStep toks fuel (.tableloop []) (p + 1)
    | .tableloop fields =>
      let t := curTok toks p
      if t.ttype = jstr "\x7d" then some (.expr (.table fields) (p + 1))
      else
        let fieldRes : Option (TField × Nat) :=
          if t.ttype = jstr "[" then
            match parseStep toks fuel (.bin 0) (p + 1) with
            | some (.expr k pk) =>
              if (curTok toks pk).ttype = jstr "]" ∧
                 (curTok toks (pk + 1)).ttype = jstr "=" then
                match parseStep toks fuel (.bin 0) (pk + 2) with
                | some (.expr v pv) => some (.indexF k v, pv)
                | _ => none
              else none
            | _ => none
          else if t.ttype = jstr "identifier" ∧
              (curTok toks (p + 1)).tvalue = jstr "=" then
            match parseStep toks fuel (.bin 0) (p + 2) with
            | some (.expr v pv) => some (.namedF t.tvalue v, pv)
            | _ => none
          else
            match parseStep toks fuel (.bin 0) p with
            | some (.expr v pv) => some (.arrayF v, pv)
            | _ => none
        match fieldRes with
        | none => none
        | some (f, p1) =>
          if (curTok toks p1).ttype = jstr "\x7d" then
            parseStep toks fuel (.tableloop (fields ++ [f])) p1
          else if (curTok toks p1).ttype = jstr "," then
            parseStep toks fuel (.tableloop (fields ++ [f])) (p1 + 1)
          else none

/-- `parseBinaryExpression(minPrecedence)` at a position. -/
def parseBinExpr (toks : List Tok) (fuel minPrec p : Nat) :
    Option (Expr × Nat) :=
  match parseStep toks fuel (.bin minPrec) p with
  | some (.expr e p1) => some (e, p1)
  | _ => none

/-- `parseExpression()`. -/
def parseExpr (toks : List Tok) (fuel : Nat) : Option (Expr × Nat) :=
  parseBinExpr toks fuel 0 0

/-- An `identifier` token. -/
def idTok (v : JSStr) : Tok := ⟨jstr "identifier", v⟩

/-- An `operator` token. -/
def opTok (v : String) : Tok := ⟨jstr "operator", v.data.map Char.toNat⟩

end Parser

/-! ## Driver (`Obfuscator`, src/src/core/obfuscator.js)

`obfuscate(code, options)` takes no seed: it derives one per call from
`Date.now() ^ Math.random() * 0xFFFFFFFF`.  The model takes the ambient
values as parameters: `t` is `Date.now()` and `m` is
`ToInt32(Math.random() * 0xFFFFFFFF)` (both as their 32-bit patterns
after the coercion in `^ … >>> 0`).

`parseLuau(code)` returns `{ transform: f => f(this), toString: () => code }`:
the "AST" handed to every pass is the `Obfuscator` instance itself — an
object with no `type`/`value`/`children` properties (`obfNode`) — and
`toString` is a closure returning the argument unchanged. -/

namespace Obfuscator

/-- `Buffer.byteLength(str, 'utf8')` over UTF-16 units (surrogate pairs
4 bytes, lone surrogates the 3-byte replacement character). -/
def utf8Len : List Nat → Nat
  | [] => 0
  | [u] => if u < 128 then 1 else if u < 2048 then 2 else 3
  | u :: v :: rest =>
    if u < 128 then 1 + utf8Len (v :: rest)
    else if u < 2048 then 2 + utf8Len (v :: rest)
    else if 55296 ≤ u ∧ u < 56320 ∧ 56320 ≤ v ∧ v < 57344 then
      4 + utf8Len rest
    else 3 + utf8Len (v :: rest)

/-- One non-pair unit's UTF-8 bytes (`TextEncoder`; lone surrogates
become `EF BF BD`). -/
def utf8Enc1 (u : Nat) : List Nat :=
  if u < 128 then [u]
  else if u < 2048 then [192 + u / 64, 128 + u % 64]
  else if 55296 ≤ u ∧ u < 57344 then [239, 191, 189]
  else [224 + u / 4096, 128 + (u / 64) % 64, 128 + u % 64]

/-- `new TextEncoder().encode(str)`. -/
def utf8Bytes : List Nat → List Nat
  | [] => []
  | [u] => utf8Enc1 u
  | u :: v :: rest =>
    if 55296 ≤ u ∧ u < 56320 ∧ 56320 ≤ v ∧ v < 57344 then
      let cp := 65536 + (u - 55296) * 1024 + (v - 56320)
      [240 + cp / 262144, 128 + (cp / 4096) % 64, 128 + (cp / 64) % 64,
       128 + cp % 64] ++ utf8Bytes rest
    else utf8Enc1 u ++ utf8Bytes (v :: rest)

/-- `code.split('\n')`. -/
def splitOnNl : List Nat → List (List Nat)
  | [] => [[]]
  | c :: rest =>
    let r := splitOnNl rest
    if c = 10 then [] :: r
    else
      match r with
      | h :: t => (c :: h) :: t
      | [] => [[c]]

def joinNl (lines : List (List Nat)) : JSStr :=
  List.intercalate [10] lines

/-- `'x'.repeat(k)`. -/
def repeatStr (x : JSStr) (k : Nat) : JSStr :=
  (List.replicate k x).flatten

def spaces : List JSStr := [jstr " ", jstr "\t", jstr "  ", jstr "\t\t"]

/-- `padWithRandomWhitespace(str)`. -/
def padLine (line : JSStr) (s : Nat) : JSStr × Nat :=
  let (c1, s1) := Ent.randomChoice spaces s
  let (k1, s2) := Ent.randomInt 0 2 s1
  let (c2, s3) := Ent.randomChoice spaces s2
  let (k2, s4) := Ent.randomInt 0 2 s3
  (repeatStr c1 k1 ++ line ++ repeatStr c2 k2, s4)

/-- The comment strings of `generateRandomComment` (code units exactly as
the UTF-8 source file decodes). -/
def comments : List JSStr :=
  [[45,45,32,226,376,168,109,101,109,111,114,121,32,105,110,116,101,103,
    114,105,116,121,226,376,169],
   [45,45,32,226,163,99,104,101,99,107,115,117,109,32,118,97,108,105,100,
    226,166],
   [45,45,32,226,184,162,101,110,118,105,114,111,110,109,101,110,116,32,
    115,116,97,98,108,101,226,184,165],
   [45,45,32,226,161,110,111,32,116,97,109,112,101,114,105,110,103,32,100,
    101,116,101,99,116,101,100,226,164],
   [45,45,32,226,166,8212,101,120,101,99,117,116,105,111,110,32,110,111,
    109,105,110,97,108,226,166,732],
   [45,45,32,226,376,166,115,116,97,99,107,32,112,114,111,116,101,99,116,
    101,100,226,376,167],
   [45,45,32,226,166,8240,116,105,109,105,110,103,32,110,111,109,105,110,
    97,108,226,166,352]]

/-- One line of `applyFinalTransformations`: pad on `random() > 0.7`,
append a comment on `random() > 0.9`. -/
def lineStep (line : JSStr) (s : Nat) : JSStr × Nat :=
  let (u1, s1) := Ent.rand s
  let (line1, s2) :=
    if Ent.randGt u1 7 10 then padLine line s1 else (line, s1)
  let (u2, s3) := Ent.rand s2
  if Ent.randGt u2 9 10 then
    let (c, s4) := Ent.randomChoice comments s3
    (line1 ++ jstr " " ++ c, s4)
  else (line1, s3)

def finalLines : List (List Nat) → Nat → List (List Nat) × Nat
  | [], s => ([], s)
  | l :: rest, s =>
    let (l', s1) := lineStep l s
    let (rest', s2) := finalLines rest s1
    (l' :: rest', s2)

/-- `applyFinalTransformations(code, options)`. -/
def applyFinalTransformations (code : JSStr) (s : Nat) : JSStr × Nat :=
  let (lines, s') := finalLines (splitOnNl code) s
  (joinNl lines, s')

/-- The recognized option keys (`securityProfile` is interpolated into
the header; `obfuscationLevel` 0 stands for the absent/0 falsy cases of
`options.obfuscationLevel || 5`). -/
structure Options where
  variableRenaming : Bool
  stringEncryption : Bool
  controlFlowObfuscation : Bool
  deadCodeInjection : Bool
  vmObfuscation : Bool
  antiDebug : Bool
  antiTampering : Bool
  integrityChecks : Bool
  obfuscationLevel : Nat
  securityProfile : JSStr

/-- `getSecurityLevel(options)`. -/
def getSecurityLevel (o : Options) : JSStr :=
  let lvl := if o.obfuscationLevel = 0 then 5 else o.obfuscationLevel
  if lvl ≥ 9 then jstr "Military Grade"
  else if lvl ≥ 7 then jstr "Enterprise"
  else if lvl ≥ 5 then jstr "Professional"
  else if lvl ≥ 3 then jstr "Standard"
  else jstr "Basic"

/-- `ToInt32`. -/
def toInt32 (x : Int) : Int := (x + 2147483648) % 4294967296 - 2147483648

/-- One step of `generateChecksum` on the unsigned 32-bit pattern of
`hash`: `hash = ((hash << 5) - hash) + char; hash = hash & hash` — the
shift wraps to int32, the subtraction and addition are exact doubles,
and `hash & hash` coerces back to int32; on patterns this is
`(hash·32 − hash + char) mod 2³²`. -/
def checksumStep (h c : Nat) : Nat :=
  ((h * 32) % 4294967296 + 4294967296 + c - h) % 4294967296

def checksumLoop : List Nat → Nat → Nat
  | [], h => h
  | c :: rest, h => checksumLoop rest (checksumStep h c)

/-- The signed int32 value of an unsigned 32-bit pattern. -/
def signed32 (h : Nat) : Int :=
  if h < 2147483648 then (h : Int) else (h : Int) - 4294967296

/-- The final signed `hash` value of `generateChecksum`. -/
def checksumHash (code : JSStr) : Int :=
  signed32 (checksumLoop code 0)

/-- `Number.prototype.toString(16)` for a 32-bit integer value:
lowercase hex digits, a leading `-` for negatives, no padding. -/
def jsToString16 (h : Int) : JSStr :=
  if h < 0 then jstr "-" ++ jstr (Nat.toDigits 16 h.natAbs).asString
  else jstr (Nat.toDigits 16 h.natAbs).asString

/-- `generateChecksum(code)`: the rolling hash over `code.length` UTF-16
units (`charCodeAt`), rendered by `toString(16)`. -/
def generateChecksum (code : JSStr) : JSStr :=
  jsToString16 (checksumHash code)

/-- `generateSeed() = (Date.now() ^ Math.random() * 0xFFFFFFFF) >>> 0`,
on the 32-bit patterns of the two coerced operands. -/
def generateSeed (t m : Nat) : Nat :=
  (t % 4294967296) ^^^ (m % 4294967296)

/-- `parseLuau(code).toString` is the closure `() => code`. -/
def parseLuauToString (code : JSStr) : JSStr := code

/-- The value `parseLuau(code).transform` passes to every pass:
`transformer(this)` — the `Obfuscator` instance, an object with no
`type`, `value`, `condition`, `thenBlock` or `children` property. -/
def obfNode : JsVal := .obj none none none none none

end Obfuscator

/-! ### String-encryption walk and VM wrap (the remaining two passes) -/

namespace ByteEncryptor

mutual

/-- `encryptStrings(node)`: replace the value of every `'string'`-typed
node by the emitted decoder text (over the UTF-8 bytes of the value;
`TextEncoder().encode(undefined)` is the empty byte string), then recurse
into children. -/
def encryptStrings (s : Nat) : JsVal → JsVal × Nat
  | .str t => (.str t, s)
  | .obj ty v c tb ch =>
    let (v', s1) :=
      if ty = some (jstr "string") then
        let bytes :=
          match v with
          | some x => Obfuscator.utf8Bytes x
          | none => []
        let (enc, sa) := multiStageEncrypt bytes s
        let (dec, sb) := generateDecryptor enc sa
        (some dec, sb)
      else (v, s)
    match ch with
    | none => (.obj ty v' c tb none, s1)
    | some l =>
      let (l', s2) := encryptStringsList s1 l
      (.obj ty v' c tb (some l'), s2)

def encryptStringsList (s : Nat) : List JsVal → List JsVal × Nat
  | [] => ([], s)
  | x :: xs =>
    let (x', s1) := encryptStrings s x
    let (xs', s2) := encryptStringsList s1 xs
    (x' :: xs', s2)

end

end ByteEncryptor

namespace VM

def baseOpcodeVals : List Nat :=
  [6719, 11086, 15453, 19820, 24187, 28554, 31385, 35752]

def opcodeXorLoop : List Nat → Nat → List Nat × Nat
  | [], s => ([], s)
  | v :: rest, s =>
    let (r, s1) := Ent.randomInt 4096 65535 s
    let (rest', s2) := opcodeXorLoop rest s1
    ((v ^^^ r) :: rest', s2)

/-- `VirtualMachine.generateOpcodes()`: one draw decides whether the
value list is reversed, then each value is XORed with a
`randomInt(0x1000, 0xFFFF)` draw. -/
def generateOpcodes (s : Nat) : List Nat × Nat :=
  let (u, s1) := Ent.rand s
  let vals := if Ent.randGt u 1 2 then baseOpcodeVals.reverse
              else baseOpcodeVals
  opcodeXorLoop vals s1

def registersLoop : Nat → Nat → List JSStr × Nat
  | 0, s => ([], s)
  | k+1, s =>
    let (g, s1) := Ent.generateIdentifier s
    let (rest, s2) := registersLoop k s1
    (g :: rest, s2)

/-- `VirtualMachine.generateRegisters()`: 16 identifiers. -/
def generateRegisters (s : Nat) : List JSStr × Nat :=
  registersLoop 16 s

/-- The entropy consumed by the `VirtualMachine` constructor. -/
def constructorState (s : Nat) : Nat :=
  (generateRegisters (generateOpcodes s).2).2

/-- `wrap(node)`: only `'function'`/`'block'`-typed nodes are rewritten
(via `generateVMCode`, not modelled — that branch is unreachable from
`obfuscate`, whose "AST" node has no `type` property); every other node
is untouched. -/
def wrap (node : JsVal) (s : Nat) : Option (JsVal × Nat) :=
  if node.vtype = some (jstr "function") ∨
     node.vtype = some (jstr "block") then none
  else some (node, s)

end VM

namespace Obfuscator

/-- The result record of `obfuscate`.  The source's `expansionRatio`
field is `((obfuscatedSize / originalSize) * 100).toFixed(2) + '%'` — a
decimal rendering of an IEEE quotient, determined by the two size fields
but with no exact integer model; it is left out of the record. -/
structure ObfResult where
  code : JSStr
  originalSize : Nat
  obfuscatedSize : Nat
  securityLevel : JSStr
  checksum : JSStr
deriving DecidableEq

/-- The pass section of `obfuscate` (lines 32–61): each enabled pass runs
over `obfNode`; only the entropy state threads through.  `protectionGen`
stands for `AntiDebug.generateProtection` (whose snippets interpolate
IEEE doubles in decimal, left opaque); it is only consulted when one of
the three protection flags is set. -/
def passesSection (fuel : Nat) (protectionGen : Nat → JSStr × Nat)
    (o : Options) (s : Nat) : Option (JSStr × Nat) := do
  let (_, _, s1) ←
    if o.variableRenaming then Renamer.transform fuel [] s obfNode
    else some (obfNode, [], s)
  let (_, s2) :=
    if o.stringEncryption then ByteEncryptor.encryptStrings s1 obfNode
    else (obfNode, s1)
  let (_, _, s3) ←
    if o.controlFlowObfuscation then
      ControlFlow.obfuscateFlow 0 s2 fuel obfNode
    else some (obfNode, 0, s2)
  let (_, s4) ←
    if o.deadCodeInjection then DeadCode.inject s3 obfNode
    else some (obfNode, s3)
  let (_, s5) ←
    if o.vmObfuscation then VM.wrap obfNode (VM.constructorState s4)
    else some (obfNode, s4)
  if o.antiDebug || o.antiTampering || o.integrityChecks then
    let (prot, s6) := protectionGen s5
    some (prot ++ jstr "\n\n", s6)
  else
    some ([], s5)

/-- `obfuscate(code, options)`, also exposing the `ast.toString()` value
(the emitted body between the prologue and the final textual pass).
`sessionId` is the instance's constructor-time session id; `t`, `m` are
the ambient `Date.now()` / coerced `Math.random()` of this call's
`generateSeed()`. -/
def obfuscatePipeline (fuel : Nat) (protectionGen : Nat → JSStr × Nat)
    (o : Options) (sessionId code : JSStr) (t m : Nat) :
    Option (ObfResult × JSStr) := do
  let originalSize := utf8Len code
  let s0 := generateSeed t m
  let header :=
    jstr "--[[\n       Obfuscated Using Celestial Obfuscator\n       Session: "
    ++ sessionId ++ jstr "\n       Profile: " ++ o.securityProfile ++
    jstr "\n  ]]\n\n"
  let (prologue, s1) ← passesSection fuel protectionGen o s0
  let transformedCode := parseLuauToString code
  let obf0 := header ++ prologue ++ transformedCode
  let (finalStr, _) := applyFinalTransformations obf0 s1
  let obfuscatedSize := utf8Len finalStr
  some ({ code := finalStr
          originalSize := originalSize
          obfuscatedSize := obfuscatedSize
          securityLevel := getSecurityLevel o
          checksum := generateChecksum finalStr }, transformedCode)

/-- `obfuscate(code, options)`. -/
def obfuscate (fuel : Nat) (protectionGen : Nat → JSStr × Nat)
    (o : Options) (sessionId code : JSStr) (t m : Nat) :
    Option ObfResult :=
  (obfuscatePipeline fuel protectionGen o sessionId code t m).map (·.1)

/-- All boolean options off, level unset, profile `"basic"`. -/
def optionsOff : Options :=
  ⟨false, false, false, false, false, false, false, false, 0, jstr "basic"⟩

/-- A trivial stand-in for `generateProtection` in evaluations that do
not enable protection (the pipeline never consults it there). -/
def noProtection : Nat → JSStr × Nat := fun s => ([], s)

end Obfuscator

/-! ## Fixtures used by the claim theorems -/

/-- A node subtree position: child indices from the root. -/
def atPath : JsVal → List Nat → Option JsVal
  | t, [] => some t
  | t, i :: p =>
    match (t.vchildren.getD []).get? i with
    | some c => atPath c p
    | none => none

/-- The `value` of the node at a position. -/
def valAt (t : JsVal) (p : List Nat) : Option JSStr :=
  (atPath t p).bind JsVal.vvalue

/-- An `identifier` node carrying a source name. -/
def idNode (n : JSStr) : JsVal :=
  .obj (some (jstr "identifier")) (some n) none none none

/-- A function node owning one child. -/
def fnNode (c : List JsVal) : JsVal :=
  .obj (some (jstr "function")) none none none (some c)

/-- Two sibling function scopes, each containing an occurrence of the
same source name. -/
def twoScopeTree (n : JSStr) : JsVal :=
  .obj (some (jstr "block")) none none none
    (some [fnNode [idNode n], fnNode [idNode n]])

/-- A `Break` statement node. -/
def brkStmt : JsVal :=
  .obj (some (jstr "Break")) (some (jstr "break")) none none none

/-- A `Return` statement node. -/
def retStmt : JsVal :=
  .obj (some (jstr "Return")) (some (jstr "return")) none none none

/-- A one-statement block (its 30 % bound rounds down to zero). -/
def oneStmtBlock : JsVal :=
  .obj (some (jstr "block")) none none none
    (some [.obj none (some (jstr "x")) none none none])

/-! ## Claim theorems -/

/-- C10: two successive `generateIdentifier()` calls on one oracle
instance whose xorshift state is 0 (a fixed point of the generator, and
a reachable `setSeed` value) return the same string — there is no
issued-set, so the oracle re-issues an identifier, contradicting
pairwise distinctness. -/
theorem C10_identifier_reissued :
    (Ent.generateIdentifier 0).1 =
      (Ent.generateIdentifier (Ent.generateIdentifier 0).2).1 ∧
    (Ent.generateIdentifier 0).1 = [201, 184, 206, 206, 206, 234] := by
  decide

/-- C2: the decoder emitted for the one-byte string "A" (byte 65) under
oracle state 1 does not return "A": running the emitted decoder body
over the emitted byte list yields byte 93, because the decoder's
"inverse" table is built from the all-zero table rather than the
encoding permutation, its XOR key is drawn afresh, and its arithmetic
does not invert the non-linear stage. -/
theorem C2_decoder_not_inverse :
    (let r := ByteEncryptor.multiStageEncrypt [65] 1
     let d := ByteEncryptor.generateDecryptorDraws r.2
     ByteEncryptor.luaDecoderRun d.1.k2 r.1) = [93] ∧ (93 : Nat) ≠ 65 := by
  decide

/-- Whether a node is a plain string (the shape of an emitted
dispatcher). -/
def JsVal.isStr : JsVal → Bool
  | .str _ => true
  | .obj _ _ _ _ _ => false

/-- C5: `flattenControlFlow` on a two-statement block consisting of a
`Break` and a `Return` statement (oracle state 1) replaces the block's
children by the single dispatcher string — the pass does not leave
blocks that transfer control out of the dispatch loop unflattened. -/
theorem C5_flattens_break_return :
    ((ControlFlow.flattenControlFlow [brkStmt, retStmt] 1).1.map
      JsVal.isStr) = [true] ∧
    [brkStmt, retStmt].length = 2 := by
  decide

/-- C6: the opaque predicate generated at oracle state 3 is the
`os.clock()` template `os.clock() * 339 % 3 ~= 0`, whose value differs
between an execution where `os.clock()` reads 0 and one where it reads
1/339 — so the pass can generate predicates with no statically known
constant value, whatever the runtime's `math.sin` is. -/
theorem C6_predicate_not_constant (sinv : Nat → ℚ) :
    ControlFlow.evalOPred sinv 0
        (ControlFlow.generateOPredicateStruct 0 3).1 ≠
      ControlFlow.evalOPred sinv (1/339)
        (ControlFlow.generateOPredicateStruct 0 3).1 := by
  rw [show (ControlFlow.generateOPredicateStruct 0 3).1 =
        ControlFlow.OPred.clockMod 339 3 from by decide]
  have h0 : ControlFlow.evalOPred sinv 0
      (ControlFlow.OPred.clockMod 339 3) = false := by
    simp [ControlFlow.evalOPred, ControlFlow.luaMod]
  have h1 : ControlFlow.evalOPred sinv (1/339)
      (ControlFlow.OPred.clockMod 339 3) = true := by
    simp [ControlFlow.evalOPred, ControlFlow.luaMod]
    norm_num
  rw [h0, h1]
  simp

/-- C1: two calls of `obfuscate` on the same instance, the same source
`"local x = 1"`, the same options, and the same oracle seed state differ
byte-for-byte in their `code` field when the ambient `Date.now()` reads 1
for one call and 2 for the other: `obfuscate` ignores any caller seed and
reseeds the oracle from `Date.now() ^ Math.random()*0xFFFFFFFF` on every
call, so the whitespace/comment noise differs between runs. -/
theorem C1_not_deterministic :
    (Obfuscator.obfuscate 1 Obfuscator.noProtection Obfuscator.optionsOff
      (jstr "S") (jstr "local x = 1") 1 0).map (·.code) =
      some [45,45,91,91,10,32,32,32,32,32,32,32,79,98,102,117,115,99,97,116,101,100,32,85,115,105,110,103,32,67,101,108,101,115,116,105,97,108,32,79,98,102,117,115,99,97,116,111,114,10,32,32,32,32,32,32,32,83,101,115,115,105,111,110,58,32,83,10,9,9,9,9,32,32,32,32,32,32,32,80,114,111,102,105,108,101,58,32,98,97,115,105,99,32,10,32,32,93,93,10,10,9,9,108,111,99,97,108,32,120,32,61,32,49,9] ∧
    (Obfuscator.obfuscate 1 Obfuscator.noProtection Obfuscator.optionsOff
      (jstr "S") (jstr "local x = 1") 2 0).map (·.code) =
      some [45,45,91,91,10,32,32,32,32,32,32,32,79,98,102,117,115,99,97,116,101,100,32,85,115,105,110,103,32,67,101,108,101,115,116,105,97,108,32,79,98,102,117,115,99,97,116,111,114,10,32,32,32,32,32,32,32,83,101,115,115,105,111,110,58,32,83,32,32,10,32,32,32,32,32,32,32,32,80,114,111,102,105,108,101,58,32,98,97,115,105,99,10,32,32,93,93,10,10,108,111,99,97,108,32,120,32,61,32,49,32,45,45,32,226,376,166,115,116,97,99,107,32,112,114,111,116,101,99,116,101,100,226,376,167] ∧
    ([45,45,91,91,10,32,32,32,32,32,32,32,79,98,102,117,115,99,97,116,101,100,32,85,115,105,110,103,32,67,101,108,101,115,116,105,97,108,32,79,98,102,117,115,99,97,116,111,114,10,32,32,32,32,32,32,32,83,101,115,115,105,111,110,58,32,83,10,9,9,9,9,32,32,32,32,32,32,32,80,114,111,102,105,108,101,58,32,98,97,115,105,99,32,10,32,32,93,93,10,10,9,9,108,111,99,97,108,32,120,32,61,32,49,9] : JSStr) ≠ [45,45,91,91,10,32,32,32,32,32,32,32,79,98,102,117,115,99,97,116,101,100,32,85,115,105,110,103,32,67,101,108,101,115,116,105,97,108,32,79,98,102,117,115,99,97,116,111,114,10,32,32,32,32,32,32,32,83,101,115,115,105,111,110,58,32,83,32,32,10,32,32,32,32,32,32,32,32,80,114,111,102,105,108,101,58,32,98,97,115,105,99,10,32,32,93,93,10,10,108,111,99,97,108,32,120,32,61,32,49,32,45,45,32,226,376,166,115,116,97,99,107,32,112,114,111,116,101,99,116,101,100,226,376,167] := by
  refine ⟨by decide, by decide, by decide⟩

/-- C7 counterexample: the `Result` returned for `"local x = 1"` (same
run as in the C1 theorem) has an 8-character checksum, not a
16-character one — `hash.toString(16)` emits at most 8 hex digits for an
int32, with no padding. -/
theorem C7_checksum_not_16_hex :
    (Obfuscator.obfuscate 1 Obfuscator.noProtection Obfuscator.optionsOff
      (jstr "S") (jstr "local x = 1") 1 0).map (·.checksum.length) =
      some 8 ∧ (8 : Nat) ≠ 16 := by
  refine ⟨by decide, by decide⟩

/-- C4 counterexample: on a program with two distinct function scopes
each containing the same source name `x`, the rename pass (oracle state
1, retry fuel 5) rewrites both occurrences to the *same* fresh name —
`this.mapping` is instance-global, so the pass does not issue one fresh
name per scope. -/
theorem C4_same_fresh_name_across_scopes :
    ((Renamer.transform 5 [] 1 (twoScopeTree (jstr "x"))).map
      (fun r => (valAt r.1 [0, 0] == valAt r.1 [1, 0],
                 (valAt r.1 [0, 0]).isSome,
                 valAt r.1 [0, 0] == some (jstr "x")))) =
      some (true, true, false) := by
  decide

/-- C9 counterexample: `inject` (oracle state 7) on a one-statement
block — whose 30 % bound rounds down to zero — still inserts one dead
statement: `randomInt(1, 0)` returns 1, so every non-empty block gets at
least one injection point. -/
theorem C9_small_block_still_injected :
    (DeadCode.inject 7 oneStmtBlock).map
      (fun p => p.1.vchildren.map List.length) = some (some 2) ∧
    (3 * 1) / 10 = 0 := by
  refine ⟨by decide, by decide⟩

/-- C4 amended: on the two-scope program, for every oracle state and any
retry fuel, whenever the rename pass terminates it rewrites both
occurrences of the (non-reserved) source name to one and the same fresh
name — the mapping is global, not per scope. -/
theorem C4_amended_one_global_mapping (s : Nat) (name : JSStr) (fuel : Nat)
    (h : Renamer.reservedHas (some name) = false) :
    match Renamer.transform (fuel+1) [] s (twoScopeTree name) with
    | none => True
    | some (t, _, _) =>
      valAt t [0, 0] = valAt t [1, 0] ∧ (valAt t [0, 0]).isSome := by
  cases hg : Renamer.generateUniqueName (fuel+1) [] s with
  | none =>
    simp +decide [Renamer.transform, Renamer.transformList, twoScopeTree,
      fnNode, idNode, Renamer.mapHasKey, Renamer.mapGet, h, hg, Option.bind]
  | some v =>
    obtain ⟨fresh, s'⟩ := v
    simp +decide [Renamer.transform, Renamer.transformList, twoScopeTree,
      fnNode, idNode, Renamer.mapHasKey, Renamer.mapGet, h, hg, Option.bind,
      valAt, atPath, JsVal.vchildren, JsVal.vvalue]

theorem C4_amended_one_global_mapping_witness :
    (match Renamer.transform (4+1) [] 1 (twoScopeTree (jstr "x")) with
     | none => True
     | some (t, _, _) =>
       valAt t [0, 0] = valAt t [1, 0] ∧ (valAt t [0, 0]).isSome) :=
  C4_amended_one_global_mapping 1 (jstr "x") 4 (by decide)

/-- C3: for every option configuration, every protection generator,
every session id, ambient time/randomness, and every input, whenever
`obfuscate` returns, the body it emitted between the prologue and the
final textual pass (`ast.toString()`) is exactly the input source:
`parseLuau` returns a closure over the unmodified `code` argument, and
no pass can reach it. -/
theorem C3_emitted_body_is_input (fuel : Nat) (protG : Nat → JSStr × Nat)
    (o : Obfuscator.Options) (sid code : JSStr) (t m : Nat)
    (r : Obfuscator.ObfResult × JSStr)
    (h : Obfuscator.obfuscatePipeline fuel protG o sid code t m = some r) :
    r.2 = code := by
  cases hp : Obfuscator.passesSection fuel protG o
      (Obfuscator.generateSeed t m) with
  | none =>
    simp only [Obfuscator.obfuscatePipeline, hp, Option.bind_eq_bind,
      Option.none_bind] at h
    exact absurd h (by simp)
  | some pr =>
    simp only [Obfuscator.obfuscatePipeline, hp, Option.bind_eq_bind,
      Option.some_bind, Option.some_inj] at h
    subst h
    rfl

theorem C3_emitted_body_is_input_witness :
    ((⟨jstr "--[[\n       Obfuscated Using Celestial Obfuscator\n       Session: S\n       Profile: basic\n  ]]\n\nx",
       1, 97, jstr "Professional", jstr "-3825e87e"⟩ : Obfuscator.ObfResult),
      jstr "x").2 = jstr "x" :=
  C3_emitted_body_is_input 1 Obfuscator.noProtection Obfuscator.optionsOff
    (jstr "S") (jstr "x") 0 0 _ (by decide)

/-- The five-token stream `a ⟨op₁⟩ b ⟨op₂⟩ c`. -/
def ptoks (a : JSStr) (o1 : String) (b : JSStr) (o2 : String) (c : JSStr) :
    List Parser.Tok :=
  [Parser.idTok a, Parser.opTok o1, Parser.idTok b, Parser.opTok o2,
   Parser.idTok c]

/-- The left-associated tree `(a o1 b) o2 c` at final position 5. -/
def leftT (o1 o2 : String) (a b c : JSStr) : Option (Parser.Expr × Nat) :=
  some (.binop (jstr o2) (.binop (jstr o1) (.varE a) (.varE b)) (.varE c), 5)

/-- The right-leaning tree `a o1 (b o2 c)` at final position 5. -/
def rightT (o1 o2 : String) (a b c : JSStr) : Option (Parser.Expr × Nat) :=
  some (.binop (jstr o1) (.varE a) (.binop (jstr o2) (.varE b) (.varE c)), 5)

/-- C8 counterexample: `a .. b .. c` parses to the left-associated tree
`(a .. b) .. c`, not the right-associated one the claim requires —
`parseBinaryExpression` recurses with `precedence + 1` for every
operator. -/
theorem C8_concat_parses_left :
    Parser.parseExpr (ptoks (jstr "a") ".." (jstr "b") ".." (jstr "c")) 40 =
      leftT ".." ".." (jstr "a") (jstr "b") (jstr "c") ∧
    leftT ".." ".." (jstr "a") (jstr "b") (jstr "c") ≠
      rightT ".." ".." (jstr "a") (jstr "b") (jstr "c") := by
  refine ⟨rfl, ?_⟩
  simp [leftT, rightT, jstr]

/-- C8 amended: the parser follows the precedence table `or`=1, `and`=2,
comparisons=3, `..`=4, `+ -`=5, `* / %`=6, `^`=7, but parses **every**
binary operator left-associatively — including `..` and `^`.  The
conjuncts below witness, for all identifier names: equal-precedence
streams at every level associate left (first seven), and for each
adjacent precedence pair the higher level binds tighter in both orders
(remaining twelve). -/
theorem C8_amended_precedence_all_left_assoc (a b c : JSStr) :
    (Parser.parseExpr (ptoks a "or" b "or" c) 40 = leftT "or" "or" a b c) ∧
    (Parser.parseExpr (ptoks a "and" b "and" c) 40 =
      leftT "and" "and" a b c) ∧
    (Parser.parseExpr (ptoks a "<" b ">" c) 40 = leftT "<" ">" a b c) ∧
    (Parser.parseExpr (ptoks a ".." b ".." c) 40 = leftT ".." ".." a b c) ∧
    (Parser.parseExpr (ptoks a "+" b "-" c) 40 = leftT "+" "-" a b c) ∧
    (Parser.parseExpr (ptoks a "*" b "/" c) 40 = leftT "*" "/" a b c) ∧
    (Parser.parseExpr (ptoks a "^" b "^" c) 40 = leftT "^" "^" a b c) ∧
    (Parser.parseExpr (ptoks a "or" b "and" c) 40 =
      rightT "or" "and" a b c) ∧
    (Parser.parseExpr (ptoks a "and" b "or" c) 40 = leftT "and" "or" a b c) ∧
    (Parser.parseExpr (ptoks a "and" b "==" c) 40 =
      rightT "and" "==" a b c) ∧
    (Parser.parseExpr (ptoks a "==" b "and" c) 40 =
      leftT "==" "and" a b c) ∧
    (Parser.parseExpr (ptoks a "==" b ".." c) 40 = rightT "==" ".." a b c) ∧
    (Parser.parseExpr (ptoks a ".." b "==" c) 40 = leftT ".." "==" a b c) ∧
    (Parser.parseExpr (ptoks a ".." b "+" c) 40 = rightT ".." "+" a b c) ∧
    (Parser.parseExpr (ptoks a "+" b ".." c) 40 = leftT "+" ".." a b c) ∧
    (Parser.parseExpr (ptoks a "+" b "*" c) 40 = rightT "+" "*" a b c) ∧
    (Parser.parseExpr (ptoks a "*" b "+" c) 40 = leftT "*" "+" a b c) ∧
    (Parser.parseExpr (ptoks a "*" b "^" c) 40 = rightT "*" "^" a b c) ∧
    (Parser.parseExpr (ptoks a "^" b "*" c) 40 = leftT "^" "*" a b c) :=
  ⟨rfl, rfl, rfl, rfl, rfl, rfl, rfl, rfl, rfl, rfl, rfl, rfl, rfl, rfl,
   rfl, rfl, rfl, rfl, rfl⟩

/-! ### C7 amended: checksum refinement -/

/-- The amended claim's checksum, stated from the spec's words with the
two corrections the counterexample forces: the rolling hash
`h ← (h<<5) − h + unit` with 32-bit signed wrapping, taken over the
UTF-16 code units of the output string (not its UTF-8 bytes), rendered
by `toString(16)` (a variable-length, possibly `-`-prefixed hex string,
not a 16-character one). -/
def specChecksum (code : JSStr) : JSStr :=
  Obfuscator.jsToString16
    (code.foldl (fun h c => Obfuscator.toInt32 (32 * h - h + (c : Int))) 0)

theorem signed32_checksumStep (h c : Nat) (hh : h < 4294967296) :
    Obfuscator.signed32 (Obfuscator.checksumStep h c) =
    Obfuscator.toInt32
      (32 * Obfuscator.signed32 h - Obfuscator.signed32 h + (c : Int)) := by
  unfold Obfuscator.signed32 Obfuscator.checksumStep Obfuscator.toInt32
  split <;> split <;> omega

theorem checksumLoop_spec (code : List Nat) : ∀ h, h < 4294967296 →
    Obfuscator.signed32 (Obfuscator.checksumLoop code h) =
    code.foldl (fun a c => Obfuscator.toInt32 (32 * a - a + (c : Int)))
      (Obfuscator.signed32 h) := by
  induction code with
  | nil => intro h _; rfl
  | cons c rest ih =>
    intro h hh
    simp only [Obfuscator.checksumLoop, List.foldl]
    rw [← signed32_checksumStep h c hh]
    exact ih _ (Nat.mod_lt _ (by norm_num))

theorem generateChecksum_eq_specChecksum (code : JSStr) :
    Obfuscator.generateChecksum code = specChecksum code := by
  unfold Obfuscator.generateChecksum specChecksum Obfuscator.checksumHash
  rw [checksumLoop_spec code 0 (by norm_num)]
  rfl

set_option maxHeartbeats 1000000 in
/-- C7 amended: for every returned `Result`, the `checksum` field is the
rolling hash `h ← (h<<5) − h + unit` with 32-bit signed wrapping over
the UTF-16 code units of the returned `code` field, rendered by
`toString(16)` — a variable-length (≤ 8 hex digits, possibly negative)
string, not a 16-character one, and over code units rather than
bytes. -/
theorem C7_amended_checksum_spec (fuel : Nat) (protG : Nat → JSStr × Nat)
    (o : Obfuscator.Options) (sid code : JSStr) (t m : Nat)
    (r : Obfuscator.ObfResult)
    (h : Obfuscator.obfuscate fuel protG o sid code t m = some r) :
    r.checksum = specChecksum r.code := by
  cases hp : Obfuscator.passesSection fuel protG o
      (Obfuscator.generateSeed t m) with
  | none =>
    simp only [Obfuscator.obfuscate, Obfuscator.obfuscatePipeline, hp,
      Option.bind_eq_bind, Option.none_bind, Option.map_none'] at h
    exact absurd h (by simp)
  | some pr =>
    simp only [Obfuscator.obfuscate, Obfuscator.obfuscatePipeline, hp,
      Option.bind_eq_bind, Option.some_bind, Option.map_some',
      Option.some_inj] at h
    subst h
    exact generateChecksum_eq_specChecksum _

theorem C7_amended_checksum_spec_witness :
    (⟨jstr "--[[\n       Obfuscated Using Celestial Obfuscator\n       Session: S\n       Profile: basic\n  ]]\n\nx",
      1, 97, jstr "Professional", jstr "-3825e87e"⟩ :
        Obfuscator.ObfResult).checksum =
    specChecksum
      (⟨jstr "--[[\n       Obfuscated Using Celestial Obfuscator\n       Session: S\n       Profile: basic\n  ]]\n\nx",
        1, 97, jstr "Professional", jstr "-3825e87e"⟩ :
          Obfuscator.ObfResult).code :=
  C7_amended_checksum_spec 1 Obfuscator.noProtection Obfuscator.optionsOff
    (jstr "S") (jstr "x") 0 0 _ (by decide)

/-! ### C9 amended: the dead-code insertion bound that actually holds -/

theorem xor32_lt {a b : Nat} (ha : a < 4294967296) (hb : b < 4294967296) :
    a ^^^ b < 4294967296 := by
  have h32 : (4294967296 : Nat) = 2 ^ 32 := by norm_num
  rw [h32] at ha hb ⊢
  exact Nat.bitwise_lt ha hb

theorem Ent.step_lt {s : Nat} (hs : s < 4294967296) :
    Ent.step s < 4294967296 := by
  unfold Ent.step
  simp only [Ent.U32MOD]
  have h1 : s ^^^ s * 8192 % 4294967296 < 4294967296 :=
    xor32_lt hs (Nat.mod_lt _ (by norm_num))
  refine xor32_lt (xor32_lt h1 ?_) (Nat.mod_lt _ (by norm_num))
  split <;> omega

/-- `randomInt(lo, hi)` never exceeds `lo + (hi + 1 − lo)` (one above
`hi` when `hi ≥ lo`; in particular `randomInt(1, 0) ≤ 1`). -/
theorem Ent.randomInt_le {lo hi s : Nat} (hs : s < 4294967296) :
    (Ent.randomInt lo hi s).1 ≤ lo + (hi + 1 - lo) := by
  have hu : Ent.step s ≤ Ent.U32MAX := by
    have := Ent.step_lt hs
    simp only [Ent.U32MAX]
    omega
  have key : Ent.step s * (hi + 1 - lo) / Ent.U32MAX ≤ hi + 1 - lo := by
    calc Ent.step s * (hi + 1 - lo) / Ent.U32MAX
        ≤ Ent.U32MAX * (hi + 1 - lo) / Ent.U32MAX :=
          Nat.div_le_div_right (Nat.mul_le_mul_right _ hu)
      _ = hi + 1 - lo := Nat.mul_div_cancel_left _ (by norm_num [Ent.U32MAX])
  simp only [Ent.randomInt, Ent.rand]
  omega

/-- Whether an injection point targets the node `inject` was called on. -/
def DeadCode.InjPoint.isRoot (p : DeadCode.InjPoint) : Bool :=
  p.path.isEmpty

theorem DeadCode.pointsLoop_length (k len s : Nat) :
    (DeadCode.pointsLoop k len s).1.length = k := by
  induction k generalizing s with
  | zero => rfl
  | succ n ih => simp [DeadCode.pointsLoop, ih]

theorem DeadCode.pointsLoop_root (k len s : Nat) :
    ∀ p ∈ (DeadCode.pointsLoop k len s).1, p.isRoot = true := by
  induction k generalizing s with
  | zero => intro p hp; simp [DeadCode.pointsLoop] at hp
  | succ n ih =>
    intro p hp
    simp only [DeadCode.pointsLoop, List.mem_cons] at hp
    rcases hp with h | h
    · subst h; rfl
    · exact ih _ _ h

theorem DeadCode.identifyPointsList_not_root (l : List JsVal) :
    ∀ i s p, p ∈ (DeadCode.identifyPointsList i s l).1 → p.isRoot = false := by
  induction l with
  | nil => intro i s p hp; simp [DeadCode.identifyPointsList] at hp
  | cons x xs ih =>
    intro i s p hp
    simp only [DeadCode.identifyPointsList, List.mem_append,
      List.mem_map] at hp
    rcases hp with ⟨q, _, hq⟩ | h
    · subst hq; rfl
    · exact ih _ _ _ h

theorem DeadCode.spliceIns_length (l : List JsVal) (pos : Nat) (a : JsVal) :
    (DeadCode.spliceIns l pos a).length = l.length + 1 := by
  simp [DeadCode.spliceIns]
  omega

/-- `applyInjections` grows the children by exactly one element per
point whose parent is the injected node itself. -/
theorem DeadCode.applyInjections_length (pts : List DeadCode.InjPoint) :
    ∀ children s res,
      DeadCode.applyInjections pts children s = some res →
      res.1.length =
        children.length + (pts.filter (·.isRoot)).length := by
  induction pts with
  | nil =>
    intro children s res h
    simp only [DeadCode.applyInjections, Option.some_inj] at h
    subst h
    simp
  | cons p rest ih =>
    intro children s res h
    simp only [DeadCode.applyInjections] at h
    by_cases hp : p.path = []
    · rw [if_pos hp] at h
      cases hg : DeadCode.generateInjection p.ity s with
      | none =>
        rw [hg] at h
        simp only [Option.bind_eq_bind, Option.none_bind] at h
        exact absurd h (by simp)
      | some v =>
        rw [hg] at h
        simp only [Option.bind_eq_bind, Option.some_bind] at h
        have := ih _ _ _ h
        rw [this, DeadCode.spliceIns_length]
        have hroot : p.isRoot = true := by
          simp [DeadCode.InjPoint.isRoot, hp]
        simp [List.filter_cons, hroot]
        omega
    · rw [if_neg hp] at h
      have := ih _ _ _ h
      rw [this]
      have hroot : p.isRoot = false := by
        simp [DeadCode.InjPoint.isRoot, List.isEmpty_iff, hp]
      simp [List.filter_cons, hroot]

/-- C9 amended: the number of dead statements `inject` splices into the
block it is called on is `randomInt(1, min(10, ⌊0.3·n⌋))` — at least one
even when the 30 % bound rounds down to zero, and never more than
`min(10, ⌊0.3·n⌋) + 1`; so the children grow by at most that much (and
nested blocks receive no insertions at all, their recorded points never
being applied). -/
theorem C9_amended_insertion_bound (s : Nat) (hs : s < 4294967296)
    (ty v c tb : Option JSStr) (l : List JsVal) (hl : l ≠ [])
    (r : JsVal × Nat)
    (h : DeadCode.inject s (.obj ty v c tb (some l)) = some r)
    (l' : List JsVal) (hc : r.1.vchildren = some l') :
    l'.length ≤ l.length + (min 10 ((3 * l.length) / 10) + 1) := by
  have hlen : l.length ≠ 0 := by simpa using hl
  simp only [DeadCode.inject, DeadCode.identifyPoints, hlen, if_false,
    ite_false] at h
  set maxInj := min 10 ((3 * l.length) / 10) with hmax
  set numInj := (Ent.randomInt 1 maxInj s).1 with hnum
  set s1 := (Ent.randomInt 1 maxInj s).2 with hs1
  set own := (DeadCode.pointsLoop numInj l.length s1).1 with hown
  set s2 := (DeadCode.pointsLoop numInj l.length s1).2 with hs2
  set sub := (DeadCode.identifyPointsList 0 s2 l).1 with hsub
  set s3 := (DeadCode.identifyPointsList 0 s2 l).2 with hs3
  cases ha : DeadCode.applyInjections (own ++ sub) l s3 with
  | none =>
    rw [ha] at h
    simp only [Option.bind_eq_bind, Option.none_bind] at h
    exact absurd h (by simp)
  | some res =>
    rw [ha] at h
    simp only [Option.bind_eq_bind, Option.some_bind, Option.some_inj] at h
    have hlen' := DeadCode.applyInjections_length _ _ _ _ ha
    have hfilter :
        ((own ++ sub).filter (·.isRoot)).length = numInj := by
      rw [List.filter_append]
      have h1 : own.filter (·.isRoot) = own :=
        List.filter_eq_self.mpr (DeadCode.pointsLoop_root numInj l.length s1)
      have h2 : sub.filter (·.isRoot) = [] := by
        apply List.filter_eq_nil_iff.mpr
        intro p hp
        simp [DeadCode.identifyPointsList_not_root l 0 s2 p hp]
      rw [h1, h2, List.append_nil, hown, DeadCode.pointsLoop_length]
    have hnumle : numInj ≤ maxInj + 1 := by
      have := @Ent.randomInt_le 1 maxInj s hs
      omega
    have : l' = res.1 := by
      rw [← h] at hc
      simpa [JsVal.vchildren] using hc.symm
    rw [this, hlen', hfilter]
    omega

theorem option_eq_some_getD {α : Type} (o : Option α) (d : α)
    (h : o.isSome = true) : o = some (o.getD d) := by
  cases o with
  | none => simp at h
  | some x => rfl

theorem C9_amended_insertion_bound_witness :
    ((((DeadCode.inject 7 oneStmtBlock).getD
        (oneStmtBlock, 0)).1.vchildren).getD []).length ≤
      [JsVal.obj none (some (jstr "x")) none none none].length +
      (min 10 ((3 * [JsVal.obj none (some (jstr "x"))
        none none none].length) / 10) + 1) :=
  C9_amended_insertion_bound 7 (by norm_num) (some (jstr "block")) none
    none none [.obj none (some (jstr "x")) none none none] (by simp)
    ((DeadCode.inject 7 oneStmtBlock).getD (oneStmtBlock, 0))
    (option_eq_some_getD _ _ (by decide))
    ((((DeadCode.inject 7 oneStmtBlock).getD
        (oneStmtBlock, 0)).1.vchildren).getD [])
    (option_eq_some_getD _ _ (by decide))

end Celestial
